import Mathlib

/-!
# low-memory-monitor: severity state machine, memory gate and startup

A shallow embedding of `src/low-memory-monitor.c`, `src/memory-pressure-monitor.c`
and `src/sysrq-oom.c`.

* Machine integers are `Nat`/`Int`; enum values are compared through `toInt`,
  as C compares the underlying `int`.
* The `float` returned by `mem_available` is a rational: the function only ever
  produces `-1` or an unsigned 64-bit quotient, and comparing such a value with
  `0.5` gives the same answer before and after the conversion to `float`.
* Calls into the kernel and into GLib are explicit: the outcome of a system
  call is an argument, the GLib main context (source ids, pending idle
  sources) is part of the state, and what the daemon sends out is a list of
  `Effect`s.
-/

namespace LowMemoryMonitor

/-! ## Data model -/

/-- The enum `LowMemoryLevelEnum`; `INVALID` is the sentinel `-1`. -/
inductive LowMemoryLevelEnum where
  | INVALID
  | LOW
  | MEDIUM
  | CRITICAL
  deriving DecidableEq, Repr

open LowMemoryLevelEnum

/-- The integer value of an enum constant. -/
def LowMemoryLevelEnum.toInt : LowMemoryLevelEnum → Int
  | INVALID => -1
  | LOW => 0
  | MEDIUM => 1
  | CRITICAL => 2

/-- The constant `RECOVERY_INTERVAL`, in seconds. -/
def RECOVERY_INTERVAL : Int := 15

/-- The constant `POLL_INTERVAL`, in seconds. -/
def POLL_INTERVAL : Int := 1

/-- GLib's `G_USEC_PER_SEC`. -/
def G_USEC_PER_SEC : Int := 1000000

/-- An array of `LOW_MEMORY_LEVEL_COUNT` cells, one per real level. -/
structure PerLevel (α : Type) where
  low : α
  medium : α
  critical : α
  deriving DecidableEq, Repr

/-- Array read `a[level]`. The source never indexes with `INVALID` (`find_level`
yields 0..2 and `handle_level_deferred` indexes only behind its guard); that
case returns the supplied default. -/
def PerLevel.get {α : Type} (a : PerLevel α) (dflt : α) : LowMemoryLevelEnum → α
  | INVALID => dflt
  | LOW => a.low
  | MEDIUM => a.medium
  | CRITICAL => a.critical

/-- Array write `a[level] = v`; see `PerLevel.get` for `INVALID`. -/
def PerLevel.set {α : Type} (a : PerLevel α) (level : LowMemoryLevelEnum) (v : α) : PerLevel α :=
  match level with
  | INVALID => a
  | LOW => { a with low := v }
  | MEDIUM => { a with medium := v }
  | CRITICAL => { a with critical := v }

/-- The fields of `LowMemoryMonitorData` read or written by the monitor logic. -/
structure LowMemoryMonitorData where
  ret : Int
  trigger_kernel_oom : Bool
  source_id : PerLevel Nat
  last_trigger : PerLevel Int
  signal_timeout : Nat
  current_state : LowMemoryLevelEnum
  next_state : LowMemoryLevelEnum
  deriving DecidableEq, Repr

/-- The part of the GLib main loop the monitor talks to: the last source id
handed out (ids are positive and handed out in increasing order), the ids of
the pending idle sources, all of which run `emit_signal_deferred`, and whether
`g_main_loop_quit` was called. -/
structure MainContext where
  last_id : Nat
  idle : List Nat
  quit : Bool
  deriving DecidableEq, Repr

/-- The process state: the monitor data and the main context. -/
structure World where
  data : LowMemoryMonitorData
  ctx : MainContext
  deriving DecidableEq, Repr

/-- What the daemon sends out: a `LowMemoryWarning` D-Bus signal with its byte,
or a call of `sysrq_trigger_oom`. -/
inductive Effect where
  | signal (code : Nat)
  | oom_request
  deriving DecidableEq, Repr

/-- Outcome of the `open` and of the `read`/`write` on one kernel file. -/
structure FileEnv where
  open_fd : Int
  io_n : Int
  deriving DecidableEq, Repr

/-! ## GLib main context -/

/-- `g_idle_add`: a new idle source with a fresh positive id. -/
def g_idle_add (ctx : MainContext) : MainContext × Nat :=
  ({ ctx with last_id := ctx.last_id + 1, idle := ctx.idle ++ [ctx.last_id + 1] },
   ctx.last_id + 1)

/-- `g_unix_fd_add_full`: a new fd watch with a fresh positive id. -/
def g_unix_fd_add_full (ctx : MainContext) : MainContext × Nat :=
  ({ ctx with last_id := ctx.last_id + 1 }, ctx.last_id + 1)

/-- `g_source_remove`: the source with this id is destroyed. -/
def g_source_remove (ctx : MainContext) (id : Nat) : MainContext :=
  { ctx with idle := ctx.idle.filter (fun x => x ≠ id) }

/-- `g_main_loop_quit`. -/
def g_main_loop_quit (ctx : MainContext) : MainContext :=
  { ctx with quit := true }

/-! ## low-memory-monitor.c -/

/-- `level_enum_to_byte`. -/
def level_enum_to_byte (level : LowMemoryLevelEnum) : Nat :=
  if level = INVALID then 0
  else PerLevel.get { low := 50, medium := 100, critical := 255 } 0 level

/-- C `strstr`: the suffix of `hay` that starts at the first occurrence of
`needle`, or `none` (the null pointer). -/
def strstr : List Char → List Char → Option (List Char)
  | [], needle => if needle = [] then some [] else none
  | c :: cs, needle =>
    if needle.isPrefixOf (c :: cs) then some (c :: cs) else strstr cs needle

/-- C-locale `isspace`: space, and the control characters 9 to 13. -/
def ISSPACE (c : Char) : Bool :=
  c.toNat = 32 || (9 ≤ c.toNat && c.toNat ≤ 13)

/-- GLib's `G_MAXUINT64`. -/
def G_MAXUINT64 : Nat := 2 ^ 64 - 1

/-- The digit loop of `g_ascii_strtoull` in base 10: consumes decimal digits,
accumulating the value, and stops at the first other character. Returns the
value, the overflow flag and the unread rest. -/
def parse_digits : List Char → Nat → Bool → Nat × Bool × List Char
  | [], ui64, overflow => (ui64, overflow, [])
  | c :: cs, ui64, overflow =>
    if 48 ≤ c.toNat ∧ c.toNat ≤ 57 then
      if ui64 > G_MAXUINT64 / 10 ∨ (ui64 = G_MAXUINT64 / 10 ∧ c.toNat - 48 > G_MAXUINT64 % 10) then
        parse_digits cs ui64 true
      else
        parse_digits cs (ui64 * 10 + (c.toNat - 48)) overflow
    else (ui64, overflow, c :: cs)

/-- GLib `g_ascii_strtoull (nptr, &endptr, 10)`: skips leading white space,
takes an optional sign, then decimal digits. Returns the converted value and
`endptr`; when no digit was converted the value is 0 and `endptr` is `nptr`. -/
def g_ascii_strtoull (nptr : List Char) : Nat × List Char :=
  let s := nptr.dropWhile ISSPACE
  match s with
  | [] => (0, nptr)
  | c :: cs =>
    let negative := c.toNat = 45
    let save := if c.toNat = 45 ∨ c.toNat = 43 then cs else c :: cs
    let r := parse_digits save 0 false
    if r.2.2.length = save.length then (0, nptr)
    else if r.2.1 then (if negative then 1 else G_MAXUINT64, r.2.2)
    else (if negative then (2 ^ 64 - r.1) % 2 ^ 64 else r.1, r.2.2)

/-- The label `"MemTotal:"`. -/
def MemTotal_label : List Char := ['M', 'e', 'm', 'T', 'o', 't', 'a', 'l', ':']

/-- The label `"MemAvailable:"`. -/
def MemAvailable_label : List Char :=
  ['M', 'e', 'm', 'A', 'v', 'a', 'i', 'l', 'a', 'b', 'l', 'e', ':']

/-- `mem_available`. The argument is what `open` and `read` on `/proc/meminfo`
deliver: `none` when either fails, otherwise the text read, of which the
2048-byte buffer keeps at most 2047 characters. The quotient is the unsigned
64-bit division of the source, converted to the result type afterwards. -/
def mem_available (meminfo : Option (List Char)) : ℚ :=
  match meminfo with
  | none => -1
  | some text =>
    let buf := text.take 2047
    match strstr buf MemTotal_label with
    | none => -1
    | some p =>
      let r := g_ascii_strtoull p
      let mem_total := r.1
      let p := r.2
      if mem_total = 0 then -1
      else
        match strstr p MemAvailable_label with
        | none => -1
        | some p =>
          let mem_available := (g_ascii_strtoull p).1
          ((mem_available / mem_total : Nat) : ℚ)

/-- `find_level`: the first level whose watch id equals `source_id`; `none` is
the failed `g_assert_not_reached`. -/
def find_level (data : LowMemoryMonitorData) (source_id : Nat) : Option LowMemoryLevelEnum :=
  if source_id = data.source_id.low then some LOW
  else if source_id = data.source_id.medium then some MEDIUM
  else if source_id = data.source_id.critical then some CRITICAL
  else none

/-! ### sysrq-oom.c -/

/-- `fstr (path, NULL, wbuf, error)`, the write direction: `-1` when the file
cannot be opened or the write fails, else the number of bytes written. -/
def fstr (env : FileEnv) : Int :=
  if env.open_fd < 0 then -1
  else if env.io_n < 0 then -1
  else env.io_n

/-- `sysrq_trigger_oom`. -/
def sysrq_trigger_oom (env : FileEnv) : Bool :=
  if fstr env < 0 then false else true

/-! ### The state machine -/

/-- `emit_signal`: broadcasts the level's byte, stores the level, and for
`CRITICAL` asks for the OOM kill when enabled. Returns the data, the effects
and the function's result. -/
def emit_signal (data : LowMemoryMonitorData) (level : LowMemoryLevelEnum) (sysrq : FileEnv) :
    LowMemoryMonitorData × List Effect × Bool :=
  let data1 := { data with current_state := level, next_state := INVALID }
  if level = CRITICAL then
    if data1.trigger_kernel_oom then
      if sysrq_trigger_oom sysrq = false then
        (data1, [Effect.signal (level_enum_to_byte level), Effect.oom_request], false)
      else
        (data1, [Effect.signal (level_enum_to_byte level), Effect.oom_request], true)
    else (data1, [Effect.signal (level_enum_to_byte level)], true)
  else (data1, [Effect.signal (level_enum_to_byte level)], true)

/-- `emit_signal_deferred`, the idle callback. -/
def emit_signal_deferred (data : LowMemoryMonitorData) (sysrq : FileEnv) :
    LowMemoryMonitorData × List Effect :=
  if data.next_state.toInt < data.current_state.toInt then
    ({ data with signal_timeout := 0 }, [])
  else
    let r := emit_signal data data.next_state sysrq
    ({ r.1 with signal_timeout := 0 }, r.2.1)

/-- `cancel_handle_level_deferred`. -/
def cancel_handle_level_deferred (w : World) : World :=
  if w.data.signal_timeout > 0 then
    { data := { w.data with signal_timeout := 0 },
      ctx := g_source_remove w.ctx w.data.signal_timeout }
  else w

/-- `handle_level_deferred`; the Boolean is the function's result. -/
def handle_level_deferred (w : World) (next_state : LowMemoryLevelEnum) (current_time : Int) :
    World × Bool :=
  if next_state.toInt ≤ w.data.current_state.toInt ∨ next_state = CRITICAL then
    (cancel_handle_level_deferred w, false)
  else
    let d1 := { w.data with next_state := next_state }
    let d2 := { d1 with last_trigger := d1.last_trigger.set d1.next_state current_time }
    let w3 := cancel_handle_level_deferred { w with data := d2 }
    let r := g_idle_add w3.ctx
    ({ data := { w3.data with signal_timeout := r.2 }, ctx := r.1 }, true)

/-- `memory_pressure_cb`. `current_time` is the value of
`g_get_monotonic_time ()`, `mem_ratio` the value of `mem_available ()` and
`sysrq` the outcome a call of `sysrq_trigger_oom` would have. The result is
`none` when `find_level` hits its assertion; the C return value is always
`G_SOURCE_CONTINUE`. -/
def memory_pressure_cb (w : World) (source_id : Nat) (current_time : Int) (mem_ratio : ℚ)
    (sysrq : FileEnv) : Option (World × List Effect) :=
  match find_level w.data source_id with
  | none => none
  | some level =>
    if mem_ratio ≥ 0.5 then some (w, [])
    else
      let r := handle_level_deferred w level current_time
      if r.2 then some (r.1, [])
      else
        let w1 := r.1
        if w1.data.last_trigger.get 0 level = 0 ∨
            current_time - w1.data.last_trigger.get 0 level > RECOVERY_INTERVAL * G_USEC_PER_SEC then
          let e := emit_signal w1.data level sysrq
          if e.2.2 then
            some ({ w1 with data := { e.1 with last_trigger := e.1.last_trigger.set level current_time } },
                  e.2.1)
          else some ({ w1 with data := e.1 }, e.2.1)
        else some (w1, [])

/-! ### The main loop -/

/-- What the main loop can dispatch to the monitor: a kernel watch became
ready and `memory_pressure_cb` runs with that watch's id, or the loop is idle
and runs the pending idle source. -/
inductive Event where
  | pressure (source_id : Nat) (current_time : Int) (mem_ratio : ℚ) (sysrq : FileEnv)
  | idle (sysrq : FileEnv)

/-- The loop runs the first pending idle source, which is then destroyed
(`G_SOURCE_REMOVE`); nothing happens when none is pending. -/
def dispatch_idle (w : World) (sysrq : FileEnv) : World × List Effect :=
  match w.ctx.idle with
  | [] => (w, [])
  | _ :: rest =>
    let r := emit_signal_deferred w.data sysrq
    ({ data := r.1, ctx := { w.ctx with idle := rest } }, r.2)

/-- One dispatch of the main loop. -/
def step (w : World) : Event → Option (World × List Effect)
  | Event.pressure source_id current_time mem_ratio sysrq =>
    memory_pressure_cb w source_id current_time mem_ratio sysrq
  | Event.idle sysrq => some (dispatch_idle w sysrq)

/-- The state after a sequence of dispatches; `none` if an assertion failed. -/
def exec (w : World) : List Event → Option World
  | [] => some w
  | e :: es =>
    match step w e with
    | none => none
    | some r => exec r.1 es

/-- The record of a run: for each dispatch, the state it leaves and the
effects it had. -/
def run (w : World) : List Event → Option (List (World × List Effect))
  | [] => some []
  | e :: es =>
    match step w e with
    | none => none
    | some r =>
      match run r.1 es with
      | none => none
      | some rs => some (r :: rs)

/-- The monitor data as `main` sets it up: zeroed by `g_new0`, both states
`INVALID`, the configured OOM switch; `ids` are the watch ids stored by
`name_acquired_handler`. -/
def initial_data (trigger_kernel_oom : Bool) (ids : PerLevel Nat) : LowMemoryMonitorData :=
  { ret := 0
    trigger_kernel_oom := trigger_kernel_oom
    source_id := ids
    last_trigger := { low := 0, medium := 0, critical := 0 }
    signal_timeout := 0
    current_state := INVALID
    next_state := INVALID }

/-- The initial state: no history, no pending idle source. -/
def initial (trigger_kernel_oom : Bool) (ids : PerLevel Nat) (last_id : Nat) : World :=
  { data := initial_data trigger_kernel_oom ids
    ctx := { last_id := last_id, idle := [], quit := false } }

/-! ### memory-pressure-monitor.c and startup -/

/-- The enum `MemoryPressureMonitorTriggerType`. -/
inductive MemoryPressureMonitorTriggerType where
  | TRIGGER_SOME
  | TRIGGER_FULL
  deriving DecidableEq, Repr

/-- The table `triggers`: stall type and threshold in milliseconds per level. -/
def triggers : PerLevel (MemoryPressureMonitorTriggerType × Int) :=
  { low := (MemoryPressureMonitorTriggerType.TRIGGER_SOME, 70)
    medium := (MemoryPressureMonitorTriggerType.TRIGGER_SOME, 100)
    critical := (MemoryPressureMonitorTriggerType.TRIGGER_FULL, 100) }

/-- `memory_pressure_monitor_add_trigger`. `psi` is the outcome of opening
`/proc/pressure/memory` and of writing the trigger text to it; both precondition
checks hold at the only call site. Returns the watch id, 0 on failure. -/
def memory_pressure_monitor_add_trigger (ctx : MainContext)
    (_trigger_type : MemoryPressureMonitorTriggerType) (_threshold_us _window_us : Int)
    (psi : FileEnv) : MainContext × Nat :=
  if psi.open_fd < 0 then (ctx, 0)
  else if psi.io_n < 0 then (ctx, 0)
  else g_unix_fd_add_full ctx

/-- The `for` loop of `name_acquired_handler` over the remaining levels; the
Boolean is `false` when the loop left through `goto bail`. -/
def name_acquired_loop (psi : PerLevel FileEnv) : World → List LowMemoryLevelEnum → World × Bool
  | w, [] => (w, true)
  | w, i :: rest =>
    let r := memory_pressure_monitor_add_trigger w.ctx
      (triggers.get (MemoryPressureMonitorTriggerType.TRIGGER_SOME, 0) i).1
      ((triggers.get (MemoryPressureMonitorTriggerType.TRIGGER_SOME, 0) i).2 * 1000)
      (POLL_INTERVAL * 1000 * 1000)
      (psi.get { open_fd := -1, io_n := -1 } i)
    let w1 : World := { data := { w.data with source_id := w.data.source_id.set i r.2 }, ctx := r.1 }
    if r.2 = 0 then (w1, false) else name_acquired_loop psi w1 rest

/-- `name_acquired_handler`; `psi` gives, per level, the kernel's answer to
that level's registration. -/
def name_acquired_handler (w : World) (psi : PerLevel FileEnv) : World :=
  let r := name_acquired_loop psi w [LOW, MEDIUM, CRITICAL]
  if r.2 then r.1
  else { data := { r.1.data with ret := 0 }, ctx := g_main_loop_quit r.1.ctx }

/-- A registration succeeds when both the `open` and the `write` succeed. -/
def registers (psi : FileEnv) : Bool :=
  decide (0 ≤ psi.open_fd) && decide (0 ≤ psi.io_n)

/-- Every pending idle source is the one whose id `signal_timeout` holds. -/
def Tracked (w : World) : Prop :=
  ∀ id ∈ w.ctx.idle, 0 < w.data.signal_timeout ∧ id = w.data.signal_timeout

instance (w : World) : Decidable (Tracked w) := by
  unfold Tracked; infer_instance

/-- At most one idle source is pending, and it is the one `signal_timeout`
names. -/
def Single (w : World) : Prop :=
  w.ctx.idle = [] ∨ (0 < w.data.signal_timeout ∧ w.ctx.idle = [w.data.signal_timeout])

/-- The timestamp an event carries: the clock value read by
`memory_pressure_cb`; the idle callback reads no clock. -/
def event_time : Event → Option Int
  | Event.pressure _ current_time _ _ => some current_time
  | Event.idle _ => none

/-- The outcome `sysrq_trigger_oom` has if the event calls it. -/
def event_sysrq : Event → FileEnv
  | Event.pressure _ _ _ sysrq => sysrq
  | Event.idle sysrq => sysrq

/-- The event comes from a watch whose id is in `source_id`, or is an idle
dispatch. -/
def Registered (d : LowMemoryMonitorData) : Event → Prop
  | Event.pressure source_id _ _ _ => find_level d source_id ≠ none
  | Event.idle _ => True

/-- The event is a trigger event below the gate that `find_level` maps to
`level`. -/
def TriggerFor (d : LowMemoryMonitorData) (level : LowMemoryLevelEnum) : Event → Prop
  | Event.pressure source_id _ mem_ratio _ =>
    find_level d source_id = some level ∧ mem_ratio < 0.5
  | Event.idle _ => False

/-- In the run `evs` from `w0`, a trigger event for `level` below the gate
carries the timestamp `t` and either broadcasts the code of `level` in its own
handling pass or arms the deferred task for `level`. -/
def StampedBy (w0 : World) (evs : List Event) (level : LowMemoryLevelEnum) (t : Int) : Prop :=
  ∃ pre post source_id mem_ratio sysrq w1 w2 eff,
    evs = pre ++ Event.pressure source_id t mem_ratio sysrq :: post ∧
    exec w0 pre = some w1 ∧
    step w1 (Event.pressure source_id t mem_ratio sysrq) = some (w2, eff) ∧
    find_level w1.data source_id = some level ∧ mem_ratio < 0.5 ∧
    (Effect.signal (level_enum_to_byte level) ∈ eff ∨
      (eff = [] ∧ w2.data.next_state = level ∧ w2.ctx.idle ≠ []))

/-! ## Lemmas on the handler -/

theorem cancel_data (w : World) :
    (cancel_handle_level_deferred w).data = { w.data with signal_timeout := 0 } := by
  unfold cancel_handle_level_deferred
  split
  · rfl
  · next h =>
    have h0 : w.data.signal_timeout = 0 := by omega
    cases w with
    | mk d c =>
      cases d
      simp_all

theorem cancel_ctx (w : World) :
    (cancel_handle_level_deferred w).ctx =
      if 0 < w.data.signal_timeout then g_source_remove w.ctx w.data.signal_timeout
      else w.ctx := by
  unfold cancel_handle_level_deferred
  split <;> rfl

theorem cancel_idle_of_tracked (w : World) (h : Tracked w) :
    (cancel_handle_level_deferred w).ctx.idle = [] := by
  unfold cancel_handle_level_deferred
  split
  · simp only [g_source_remove]
    rw [List.filter_eq_nil_iff]
    intro a ha
    simp [(h a ha).2]
  · next hz =>
    cases hl : w.ctx.idle with
    | nil => rfl
    | cons a l =>
      exact absurd (h a (by simp [hl])).1 hz

theorem cancel_last_id (w : World) :
    (cancel_handle_level_deferred w).ctx.last_id = w.ctx.last_id := by
  unfold cancel_handle_level_deferred
  split <;> rfl

theorem cancel_quit (w : World) :
    (cancel_handle_level_deferred w).ctx.quit = w.ctx.quit := by
  unfold cancel_handle_level_deferred
  split <;> rfl

theorem cancel_idle_sub (w : World) :
    ∀ id ∈ (cancel_handle_level_deferred w).ctx.idle,
      id ∈ w.ctx.idle ∧ (0 < w.data.signal_timeout → id ≠ w.data.signal_timeout) := by
  intro id hid
  unfold cancel_handle_level_deferred at hid
  split at hid
  · have := hid
    simp only [g_source_remove, List.mem_filter, decide_eq_true_eq] at this
    exact ⟨this.1, fun _ => this.2⟩
  · next hz => exact ⟨hid, fun h => absurd h hz⟩

theorem emit_signal_data (d : LowMemoryMonitorData) (level : LowMemoryLevelEnum) (sysrq : FileEnv) :
    (emit_signal d level sysrq).1 = { d with current_state := level, next_state := INVALID } := by
  unfold emit_signal
  dsimp only
  split_ifs <;> rfl

theorem emit_signal_effects (d : LowMemoryMonitorData) (level : LowMemoryLevelEnum)
    (sysrq : FileEnv) :
    (emit_signal d level sysrq).2.1 =
      Effect.signal (level_enum_to_byte level) ::
        (if level = CRITICAL ∧ d.trigger_kernel_oom = true then [Effect.oom_request] else []) := by
  unfold emit_signal
  dsimp only
  split_ifs <;> simp_all

theorem emit_signal_result (d : LowMemoryMonitorData) (level : LowMemoryLevelEnum)
    (sysrq : FileEnv) :
    (emit_signal d level sysrq).2.2 = false ↔
      level = CRITICAL ∧ d.trigger_kernel_oom = true ∧ sysrq_trigger_oom sysrq = false := by
  unfold emit_signal
  dsimp only
  split_ifs <;> simp_all

/-- The handler after `find_level`, as one expression in the four outcomes:
veto, direct confirmation, suppression, deferral. -/
theorem memory_pressure_cb_eq (w : World) (source_id : Nat) (level : LowMemoryLevelEnum)
    (current_time : Int) (mem_ratio : ℚ) (sysrq : FileEnv)
    (hf : find_level w.data source_id = some level) :
    memory_pressure_cb w source_id current_time mem_ratio sysrq =
      if mem_ratio ≥ 0.5 then some (w, [])
      else if level.toInt ≤ w.data.current_state.toInt ∨ level = CRITICAL then
        if w.data.last_trigger.get 0 level = 0 ∨
            current_time - w.data.last_trigger.get 0 level > RECOVERY_INTERVAL * G_USEC_PER_SEC then
          some ({ data :=
                    { w.data with
                      signal_timeout := 0
                      current_state := level
                      next_state := INVALID
                      last_trigger :=
                        cond (emit_signal (cancel_handle_level_deferred w).data level sysrq).2.2
                          (w.data.last_trigger.set level current_time) w.data.last_trigger }
                  ctx := (cancel_handle_level_deferred w).ctx },
                (emit_signal (cancel_handle_level_deferred w).data level sysrq).2.1)
        else some (cancel_handle_level_deferred w, [])
      else
        some ({ data :=
                  { w.data with
                    next_state := level
                    last_trigger := w.data.last_trigger.set level current_time
                    signal_timeout := (cancel_handle_level_deferred w).ctx.last_id + 1 }
                ctx :=
                  { (cancel_handle_level_deferred w).ctx with
                    last_id := (cancel_handle_level_deferred w).ctx.last_id + 1
                    idle := (cancel_handle_level_deferred w).ctx.idle ++
                      [(cancel_handle_level_deferred w).ctx.last_id + 1] } },
              []) := by
  unfold memory_pressure_cb
  simp only [hf]
  by_cases hg : mem_ratio ≥ 0.5
  · simp only [if_pos hg]
  · simp only [if_neg hg]
    unfold handle_level_deferred
    by_cases hd : level.toInt ≤ w.data.current_state.toInt ∨ level = CRITICAL
    · simp only [if_pos hd, cancel_data, emit_signal_data]
      by_cases hc : w.data.last_trigger.get 0 level = 0 ∨
          current_time - w.data.last_trigger.get 0 level > RECOVERY_INTERVAL * G_USEC_PER_SEC
      · simp only [if_pos hc]
        by_cases he : (emit_signal { w.data with signal_timeout := 0 } level sysrq).2.2 = true
        · simp [he]
        · simp [he]
      · simp [if_neg hc]
    · simp only [if_neg hd, cancel_data, cancel_ctx, g_idle_add, if_true]

theorem memory_pressure_cb_none (w : World) (source_id : Nat) (current_time : Int)
    (mem_ratio : ℚ) (sysrq : FileEnv) (hf : find_level w.data source_id = none) :
    memory_pressure_cb w source_id current_time mem_ratio sysrq = none := by
  unfold memory_pressure_cb
  simp only [hf]

theorem level_enum_to_byte_mono (a b : LowMemoryLevelEnum) (h : a.toInt ≤ b.toInt) :
    level_enum_to_byte a ≤ level_enum_to_byte b := by
  cases a <;> cases b <;> first | decide | (exfalso; revert h; decide)

theorem level_enum_to_byte_inj (a b : LowMemoryLevelEnum)
    (h : level_enum_to_byte a = level_enum_to_byte b) : a = b := by
  cases a <;> cases b <;> first | rfl | (exfalso; revert h; decide)

theorem mem_emit_effects (d : LowMemoryMonitorData) (level : LowMemoryLevelEnum)
    (sysrq : FileEnv) (c : Nat) (h : Effect.signal c ∈ (emit_signal d level sysrq).2.1) :
    c = level_enum_to_byte level := by
  rw [emit_signal_effects] at h
  split_ifs at h <;> simpa using h

theorem emit_signal_deferred_eq (d : LowMemoryMonitorData) (sysrq : FileEnv) :
    emit_signal_deferred d sysrq =
      if d.next_state.toInt < d.current_state.toInt then ({ d with signal_timeout := 0 }, [])
      else ({ d with signal_timeout := 0, current_state := d.next_state, next_state := INVALID },
            (emit_signal d d.next_state sysrq).2.1) := by
  unfold emit_signal_deferred
  split_ifs
  · rfl
  · simp only [emit_signal_data]

/-! ## C1 -/

/-- C1, counterexample: from the initial state a Critical event at 1 s is
confirmed (code 255, state `CRITICAL`); a Low event at 2 s is then confirmed
directly, emits code 50 and moves the state down to `LOW`. -/
theorem C1_counterexample :
    (exec (initial true { low := 1, medium := 2, critical := 3 } 3)
        [Event.pressure 3 1000000 (3 / 10) { open_fd := 4, io_n := 1 }]).map
      (fun w => w.data.current_state) = some CRITICAL ∧
    step
      { data :=
          { ret := 0, trigger_kernel_oom := true
            source_id := { low := 1, medium := 2, critical := 3 }
            last_trigger := { low := 0, medium := 0, critical := 1000000 }
            signal_timeout := 0, current_state := CRITICAL, next_state := INVALID }
        ctx := { last_id := 3, idle := [], quit := false } }
      (Event.pressure 1 2000000 (3 / 10) { open_fd := 4, io_n := 1 }) =
    some
      ({ data :=
          { ret := 0, trigger_kernel_oom := true
            source_id := { low := 1, medium := 2, critical := 3 }
            last_trigger := { low := 2000000, medium := 0, critical := 1000000 }
            signal_timeout := 0, current_state := LOW, next_state := INVALID }
         ctx := { last_id := 3, idle := [], quit := false } },
       [Effect.signal 50]) ∧
    exec (initial true { low := 1, medium := 2, critical := 3 } 3)
        [Event.pressure 3 1000000 (3 / 10) { open_fd := 4, io_n := 1 }] =
      some
        { data :=
            { ret := 0, trigger_kernel_oom := true
              source_id := { low := 1, medium := 2, critical := 3 }
              last_trigger := { low := 0, medium := 0, critical := 1000000 }
              signal_timeout := 0, current_state := CRITICAL, next_state := INVALID }
          ctx := { last_id := 3, idle := [], quit := false } } ∧
    LOW.toInt < CRITICAL.toInt := by
  decide!

/-- C1, amended: in every state and for every step, either `current_state`
does not move down and no emitted code is below the code of the
`current_state` held before the step, or the step is a trigger event below
the gate for a level lower than `current_state` whose recovery check passes;
that event is confirmed directly, sets `current_state` to its level and emits
it. In particular the deferred task never lowers `current_state`. -/
theorem C1_current_state_lowered_only_by_direct_confirmation (w w1 : World) (e : Event)
    (eff : List Effect) (h : step w e = some (w1, eff)) :
    (w.data.current_state.toInt ≤ w1.data.current_state.toInt ∧
      ∀ c, Effect.signal c ∈ eff → level_enum_to_byte w.data.current_state ≤ c) ∨
    (∃ source_id current_time mem_ratio sysrq level,
      e = Event.pressure source_id current_time mem_ratio sysrq ∧
      find_level w.data source_id = some level ∧ mem_ratio < 0.5 ∧
      level.toInt < w.data.current_state.toInt ∧
      (w.data.last_trigger.get 0 level = 0 ∨
        current_time - w.data.last_trigger.get 0 level > RECOVERY_INTERVAL * G_USEC_PER_SEC) ∧
      w1.data.current_state = level ∧ Effect.signal (level_enum_to_byte level) ∈ eff) := by
  cases e with
  | pressure source_id current_time mem_ratio sysrq =>
    simp only [step] at h
    cases hf : find_level w.data source_id with
    | none => rw [memory_pressure_cb_none _ _ _ _ _ hf] at h; exact absurd h (by simp)
    | some level =>
      rw [memory_pressure_cb_eq _ _ level _ _ _ hf] at h
      split_ifs at h with hg hd hc
      · simp only [Option.some.injEq, Prod.mk.injEq] at h
        obtain ⟨rfl, rfl⟩ := h
        exact Or.inl ⟨le_refl _, by simp⟩
      · simp only [Option.some.injEq, Prod.mk.injEq] at h
        obtain ⟨rfl, rfl⟩ := h
        by_cases hl : w.data.current_state.toInt ≤ level.toInt
        · refine Or.inl ⟨hl, ?_⟩
          intro c hc
          rw [mem_emit_effects _ _ _ _ hc]
          exact level_enum_to_byte_mono _ _ hl
        · refine Or.inr ⟨source_id, current_time, mem_ratio, sysrq, level, rfl, hf,
            lt_of_not_ge hg, lt_of_not_ge hl, hc, rfl, ?_⟩
          rw [emit_signal_effects]
          simp
      · simp only [Option.some.injEq, Prod.mk.injEq] at h
        obtain ⟨rfl, rfl⟩ := h
        rw [cancel_data]
        exact Or.inl ⟨le_refl _, by simp⟩
      · simp only [Option.some.injEq, Prod.mk.injEq] at h
        obtain ⟨rfl, rfl⟩ := h
        exact Or.inl ⟨le_refl _, by simp⟩
  | idle sysrq =>
    left
    simp only [step, dispatch_idle, Option.some.injEq] at h
    cases hi : w.ctx.idle with
    | nil =>
      simp only [hi, Prod.mk.injEq] at h
      obtain ⟨rfl, rfl⟩ := h
      exact ⟨le_refl _, by simp⟩
    | cons a l =>
      simp only [hi, Prod.mk.injEq] at h
      obtain ⟨rfl, rfl⟩ := h
      rw [emit_signal_deferred_eq]
      split_ifs with hn
      · exact ⟨le_refl _, by simp⟩
      · refine ⟨le_of_not_lt hn, ?_⟩
        intro c hc
        rw [mem_emit_effects _ _ _ _ hc]
        exact level_enum_to_byte_mono _ _ (le_of_not_lt hn)

/-- C1, witness: the Low event after a confirmed Critical takes the second
alternative, and the step is the one of the counterexample. -/
theorem C1_current_state_lowered_only_by_direct_confirmation_witness :
    step
      { data :=
          { ret := 0, trigger_kernel_oom := true
            source_id := { low := 1, medium := 2, critical := 3 }
            last_trigger := { low := 0, medium := 0, critical := 1000000 }
            signal_timeout := 0, current_state := CRITICAL, next_state := INVALID }
        ctx := { last_id := 3, idle := [], quit := false } }
      (Event.pressure 1 2000000 (3 / 10) { open_fd := 4, io_n := 1 }) =
    some
      ({ data :=
          { ret := 0, trigger_kernel_oom := true
            source_id := { low := 1, medium := 2, critical := 3 }
            last_trigger := { low := 2000000, medium := 0, critical := 1000000 }
            signal_timeout := 0, current_state := LOW, next_state := INVALID }
         ctx := { last_id := 3, idle := [], quit := false } },
       [Effect.signal 50]) ∧
    ((CRITICAL.toInt ≤ LOW.toInt ∧
      ∀ c, Effect.signal c ∈ [Effect.signal 50] → level_enum_to_byte CRITICAL ≤ c) ∨
    (∃ source_id current_time mem_ratio sysrq level,
      Event.pressure 1 2000000 (3 / 10) { open_fd := 4, io_n := 1 } =
        Event.pressure source_id current_time mem_ratio sysrq ∧
      find_level
        { ret := 0, trigger_kernel_oom := true
          source_id := { low := 1, medium := 2, critical := 3 }
          last_trigger := { low := 0, medium := 0, critical := 1000000 }
          signal_timeout := 0, current_state := CRITICAL, next_state := INVALID }
        source_id = some level ∧ mem_ratio < 0.5 ∧
      level.toInt < CRITICAL.toInt ∧
      ((PerLevel.mk 0 0 1000000 : PerLevel Int).get 0 level = 0 ∨
        current_time - (PerLevel.mk 0 0 1000000 : PerLevel Int).get 0 level >
          RECOVERY_INTERVAL * G_USEC_PER_SEC) ∧
      LOW = level ∧ Effect.signal (level_enum_to_byte level) ∈ [Effect.signal 50])) :=
  ⟨by decide!,
   C1_current_state_lowered_only_by_direct_confirmation _ _ _ _
    (show step
      { data :=
          { ret := 0, trigger_kernel_oom := true
            source_id := { low := 1, medium := 2, critical := 3 }
            last_trigger := { low := 0, medium := 0, critical := 1000000 }
            signal_timeout := 0, current_state := CRITICAL, next_state := INVALID }
        ctx := { last_id := 3, idle := [], quit := false } }
      (Event.pressure 1 2000000 (3 / 10) { open_fd := 4, io_n := 1 }) =
    some
      ({ data :=
          { ret := 0, trigger_kernel_oom := true
            source_id := { low := 1, medium := 2, critical := 3 }
            last_trigger := { low := 2000000, medium := 0, critical := 1000000 }
            signal_timeout := 0, current_state := LOW, next_state := INVALID }
         ctx := { last_id := 3, idle := [], quit := false } },
       [Effect.signal 50]) by decide!)⟩

/-! ## C2 -/

/-- C2, gate veto: for every state, every level the watch id stands for and
every time, a ratio of at least 0.5 makes `memory_pressure_cb` return with no
effect at all (no signal, no OOM request) and the state unchanged in every
field, the deferred timer and the pending idle sources included. -/
theorem C2_gate_veto (w : World) (source_id : Nat) (level : LowMemoryLevelEnum)
    (current_time : Int) (mem_ratio : ℚ) (sysrq : FileEnv)
    (hf : find_level w.data source_id = some level) (hg : mem_ratio ≥ 0.5) :
    memory_pressure_cb w source_id current_time mem_ratio sysrq = some (w, []) := by
  rw [memory_pressure_cb_eq _ _ level _ _ _ hf, if_pos hg]

/-- C2, witness: a Medium event at ratio 1 while a Low escalation is pending. -/
theorem C2_gate_veto_witness :
    memory_pressure_cb
      { data :=
          { ret := 0, trigger_kernel_oom := true
            source_id := { low := 1, medium := 2, critical := 3 }
            last_trigger := { low := 1000000, medium := 0, critical := 0 }
            signal_timeout := 4, current_state := INVALID, next_state := LOW }
        ctx := { last_id := 4, idle := [4], quit := false } }
      2 1500000 1 { open_fd := 4, io_n := 1 } =
    some
      ({ data :=
          { ret := 0, trigger_kernel_oom := true
            source_id := { low := 1, medium := 2, critical := 3 }
            last_trigger := { low := 1000000, medium := 0, critical := 0 }
            signal_timeout := 4, current_state := INVALID, next_state := LOW }
         ctx := { last_id := 4, idle := [4], quit := false } }, []) :=
  C2_gate_veto _ 2 MEDIUM 1500000 1 _ (by decide) (by norm_num)

/-! ## The memory gate: C3, C4 -/

theorem strstr_head (a : Char) (needle : List Char) :
    ∀ (hay p : List Char), strstr hay (a :: needle) = some p → ∃ rest, p = a :: rest := by
  intro hay
  induction hay with
  | nil => intro p h; simp [strstr] at h
  | cons c cs ih =>
    intro p h
    unfold strstr at h
    split_ifs at h with hp
    · simp only [List.isPrefixOf, Bool.and_eq_true, beq_iff_eq] at hp
      simp only [Option.some.injEq] at h
      exact ⟨cs, by rw [← h, hp.1]⟩
    · exact ih p h

theorem g_ascii_strtoull_label (rest : List Char) :
    g_ascii_strtoull ('M' :: rest) = (0, 'M' :: rest) := by
  have hs : ISSPACE 'M' = false := by decide
  have h1 : ¬ ('M'.toNat = 45 ∨ 'M'.toNat = 43) := by decide
  have h2 : ¬ (48 ≤ 'M'.toNat ∧ 'M'.toNat ≤ 57) := by decide
  simp [g_ascii_strtoull, List.dropWhile, hs, h1, parse_digits, h2]

/-- The conversion of `mem_total` starts at the label itself, so it converts
nothing: `mem_available` returns `-1` on every input. -/
theorem mem_available_eq (meminfo : Option (List Char)) : mem_available meminfo = -1 := by
  unfold mem_available
  cases meminfo with
  | none => rfl
  | some text =>
    dsimp only
    cases hs : strstr (List.take 2047 text) MemTotal_label with
    | none => rfl
    | some p =>
      obtain ⟨rest, rfl⟩ := strstr_head _ _ _ _ hs
      simp [g_ascii_strtoull_label]

theorem memory_pressure_cb_below_gate (w : World) (source_id : Nat) (current_time : Int)
    (r1 r2 : ℚ) (sysrq : FileEnv) (h1 : r1 < 0.5) (h2 : r2 < 0.5) :
    memory_pressure_cb w source_id current_time r1 sysrq =
      memory_pressure_cb w source_id current_time r2 sysrq := by
  unfold memory_pressure_cb
  cases find_level w.data source_id with
  | none => rfl
  | some level =>
    simp only [if_neg (not_le.mpr h1), if_neg (not_le.mpr h2)]

/-- C3, counterexample: `/proc/meminfo` cannot be opened, `mem_available`
returns `-1`, and a Critical event in the initial state is not suppressed: code
255 is broadcast, the OOM kill is requested and `current_state` becomes
`CRITICAL`. -/
theorem C3_counterexample :
    mem_available none = -1 ∧
    memory_pressure_cb (initial true { low := 1, medium := 2, critical := 3 } 3)
      3 1000000 (mem_available none) { open_fd := 4, io_n := 1 } =
    some
      ({ data :=
          { ret := 0, trigger_kernel_oom := true
            source_id := { low := 1, medium := 2, critical := 3 }
            last_trigger := { low := 0, medium := 0, critical := 1000000 }
            signal_timeout := 0, current_state := CRITICAL, next_state := INVALID }
         ctx := { last_id := 3, idle := [], quit := false } },
       [Effect.signal 255, Effect.oom_request]) := by
  decide!

/-- C3, amended: when `mem_available` fails, its result `-1` is below the gate
and the event is not vetoed: `memory_pressure_cb` handles it exactly as it
handles a trigger event with any ratio below 0.5. -/
theorem C3_failed_read_passes_the_gate (w : World) (source_id : Nat) (current_time : Int)
    (meminfo : Option (List Char)) (mem_ratio : ℚ) (sysrq : FileEnv)
    (hfail : mem_available meminfo = -1) (hr : mem_ratio < 0.5) :
    memory_pressure_cb w source_id current_time (mem_available meminfo) sysrq =
      memory_pressure_cb w source_id current_time mem_ratio sysrq := by
  rw [hfail]
  exact memory_pressure_cb_below_gate _ _ _ _ _ _ (by norm_num) hr

/-- C3, witness: the failed `open`, compared with an event at ratio 3/10. -/
theorem C3_failed_read_passes_the_gate_witness :
    memory_pressure_cb (initial true { low := 1, medium := 2, critical := 3 } 3)
        3 1000000 (mem_available none) { open_fd := 4, io_n := 1 } =
      memory_pressure_cb (initial true { low := 1, medium := 2, critical := 3 } 3)
        3 1000000 (3 / 10) { open_fd := 4, io_n := 1 } :=
  C3_failed_read_passes_the_gate _ _ _ none (3 / 10) _ (by decide!) (by norm_num)

/-- C4, the code at the failing inputs: on a memory-info text with
`MemTotal:` 10 and `MemAvailable:` 3, and on one with 10 and 6, `mem_available`
returns the error value `-1`, not 3/10 and 6/10. -/
theorem C4_mem_available_at_failing_input :
    mem_available
      (some (String.toList "MemTotal:       10 kB\nMemFree:         1 kB\nMemAvailable:    3 kB\n")) = -1 ∧
    mem_available
      (some (String.toList "MemTotal:       10 kB\nMemFree:         1 kB\nMemAvailable:    6 kB\n")) = -1 ∧
    strstr (String.toList "MemTotal:       10 kB\nMemFree:         1 kB\nMemAvailable:    3 kB\n")
      MemTotal_label =
      some (String.toList "MemTotal:       10 kB\nMemFree:         1 kB\nMemAvailable:    3 kB\n") ∧
    (g_ascii_strtoull
      (String.toList "MemTotal:       10 kB\nMemFree:         1 kB\nMemAvailable:    3 kB\n")).1 = 0 ∧
    (g_ascii_strtoull (String.toList "       10 kB\nMemFree:         1 kB")).1 = 10 := by
  decide!

/-! ## C5 -/

/-- C5, Critical is never deferred: for every state and time, a Critical event
below the gate makes `handle_level_deferred` return `FALSE`; the handler
returns with `signal_timeout = 0`, without a call of `g_idle_add`, with no
pending idle source that was not pending before and without the one
`signal_timeout` named, and with `next_state` unchanged or `INVALID`. If
`last_trigger[CRITICAL]` is 0 or more than 15 s old, `current_state` is
`CRITICAL` on return and the effects are the broadcast of 255, followed by the
OOM request exactly when `trigger_kernel_oom` is set. -/
theorem C5_critical_never_deferred (w : World) (source_id : Nat) (current_time : Int)
    (mem_ratio : ℚ) (sysrq : FileEnv)
    (hf : find_level w.data source_id = some CRITICAL) (hg : mem_ratio < 0.5) :
    (handle_level_deferred w CRITICAL current_time).2 = false ∧
    ∃ w1 eff, memory_pressure_cb w source_id current_time mem_ratio sysrq = some (w1, eff) ∧
      w1.data.signal_timeout = 0 ∧
      w1.ctx.last_id = w.ctx.last_id ∧
      (∀ id ∈ w1.ctx.idle,
        id ∈ w.ctx.idle ∧ (0 < w.data.signal_timeout → id ≠ w.data.signal_timeout)) ∧
      (w1.data.next_state = w.data.next_state ∨ w1.data.next_state = INVALID) ∧
      ((w.data.last_trigger.get 0 CRITICAL = 0 ∨
          current_time - w.data.last_trigger.get 0 CRITICAL > RECOVERY_INTERVAL * G_USEC_PER_SEC) →
        w1.data.current_state = CRITICAL ∧
        eff = Effect.signal 255 ::
          (if w.data.trigger_kernel_oom = true then [Effect.oom_request] else [])) := by
  refine ⟨by simp [handle_level_deferred], ?_⟩
  rw [memory_pressure_cb_eq _ _ CRITICAL _ _ _ hf, if_neg (not_le.mpr hg),
    if_pos (Or.inr rfl)]
  by_cases hc : w.data.last_trigger.get 0 CRITICAL = 0 ∨
      current_time - w.data.last_trigger.get 0 CRITICAL > RECOVERY_INTERVAL * G_USEC_PER_SEC
  · rw [if_pos hc]
    refine ⟨_, _, rfl, rfl, cancel_last_id w, cancel_idle_sub w, Or.inr rfl, fun _ => ⟨rfl, ?_⟩⟩
    rw [emit_signal_effects, cancel_data]
    simp [level_enum_to_byte, PerLevel.get]
  · rw [if_neg hc]
    refine ⟨_, _, rfl, ?_, cancel_last_id w, cancel_idle_sub w, Or.inl ?_, fun h => absurd h hc⟩
    · rw [cancel_data]
    · rw [cancel_data]

/-- C5, witness: a Critical event at 3 s while a Medium escalation is pending:
the idle source 4 is removed and Critical is confirmed at once. -/
theorem C5_critical_never_deferred_witness :
    memory_pressure_cb
      { data :=
          { ret := 0, trigger_kernel_oom := true
            source_id := { low := 1, medium := 2, critical := 3 }
            last_trigger := { low := 0, medium := 2900000, critical := 0 }
            signal_timeout := 4, current_state := INVALID, next_state := MEDIUM }
        ctx := { last_id := 4, idle := [4], quit := false } }
      3 3000000 (3 / 10) { open_fd := 4, io_n := 1 } =
    some
      ({ data :=
          { ret := 0, trigger_kernel_oom := true
            source_id := { low := 1, medium := 2, critical := 3 }
            last_trigger := { low := 0, medium := 2900000, critical := 3000000 }
            signal_timeout := 0, current_state := CRITICAL, next_state := INVALID }
         ctx := { last_id := 4, idle := [], quit := false } },
       [Effect.signal 255, Effect.oom_request]) ∧
    ((handle_level_deferred
      { data :=
          { ret := 0, trigger_kernel_oom := true
            source_id := { low := 1, medium := 2, critical := 3 }
            last_trigger := { low := 0, medium := 2900000, critical := 0 }
            signal_timeout := 4, current_state := INVALID, next_state := MEDIUM }
        ctx := { last_id := 4, idle := [4], quit := false } } CRITICAL 3000000).2 = false ∧
    ∃ w1 eff,
      memory_pressure_cb
        { data :=
            { ret := 0, trigger_kernel_oom := true
              source_id := { low := 1, medium := 2, critical := 3 }
              last_trigger := { low := 0, medium := 2900000, critical := 0 }
              signal_timeout := 4, current_state := INVALID, next_state := MEDIUM }
          ctx := { last_id := 4, idle := [4], quit := false } }
        3 3000000 (3 / 10) { open_fd := 4, io_n := 1 } = some (w1, eff) ∧
      w1.data.signal_timeout = 0 ∧
      w1.ctx.last_id = 4 ∧
      (∀ id ∈ w1.ctx.idle, id ∈ [4] ∧ (0 < 4 → id ≠ 4)) ∧
      (w1.data.next_state = MEDIUM ∨ w1.data.next_state = INVALID) ∧
      (((PerLevel.mk 0 2900000 0 : PerLevel Int).get 0 CRITICAL = 0 ∨
          3000000 - (PerLevel.mk 0 2900000 0 : PerLevel Int).get 0 CRITICAL >
            RECOVERY_INTERVAL * G_USEC_PER_SEC) →
        w1.data.current_state = CRITICAL ∧
        eff = Effect.signal 255 :: (if true = true then [Effect.oom_request] else []))) :=
  ⟨by decide!,
   C5_critical_never_deferred
    { data :=
        { ret := 0, trigger_kernel_oom := true
          source_id := { low := 1, medium := 2, critical := 3 }
          last_trigger := { low := 0, medium := 2900000, critical := 0 }
          signal_timeout := 4, current_state := INVALID, next_state := MEDIUM }
      ctx := { last_id := 4, idle := [4], quit := false } }
    3 3000000 (3 / 10) { open_fd := 4, io_n := 1 } (by decide) (by norm_num)⟩

/-! ## C6 -/

/-- C6, escalation deferral: in a state whose pending idle sources are tracked
by `signal_timeout`, a Low or Medium event below the gate for a level above
`current_state` emits nothing, leaves `current_state`, sets `next_state` to
the level and `last_trigger` of the level to the event time, and leaves
exactly one idle source pending, the one `signal_timeout` names. When that
source runs next, it broadcasts the code of the level (50 for Low, 100 for
Medium) and nothing else, sets `current_state` to the level, `next_state` to
`INVALID`, `signal_timeout` to 0, and no idle source stays pending. -/
theorem C6_escalation_deferral (w : World) (source_id : Nat) (level : LowMemoryLevelEnum)
    (current_time : Int) (mem_ratio : ℚ) (sysrq sysrq2 : FileEnv)
    (hT : Tracked w)
    (hf : find_level w.data source_id = some level)
    (hl : level = LOW ∨ level = MEDIUM)
    (hup : w.data.current_state.toInt < level.toInt)
    (hg : mem_ratio < 0.5) :
    ∃ w1, memory_pressure_cb w source_id current_time mem_ratio sysrq = some (w1, []) ∧
      w1.data.current_state = w.data.current_state ∧
      w1.data.next_state = level ∧
      w1.data.last_trigger.get 0 level = current_time ∧
      0 < w1.data.signal_timeout ∧
      w1.ctx.idle = [w1.data.signal_timeout] ∧
      ∃ w2, dispatch_idle w1 sysrq2 =
          (w2, [Effect.signal (if level = LOW then 50 else 100)]) ∧
        level_enum_to_byte level = (if level = LOW then 50 else 100) ∧
        w2.data.current_state = level ∧
        w2.data.next_state = INVALID ∧
        w2.data.signal_timeout = 0 ∧
        w2.ctx.idle = [] := by
  have hd : ¬ (level.toInt ≤ w.data.current_state.toInt ∨ level = CRITICAL) := by
    rintro (h | h)
    · omega
    · rcases hl with hl | hl <;> rw [hl] at h <;> exact absurd h (by decide)
  rw [memory_pressure_cb_eq _ _ level _ _ _ hf, if_neg (not_le.mpr hg), if_neg hd]
  have hbyte : level_enum_to_byte level = (if level = LOW then 50 else 100) := by
    rcases hl with hl | hl <;> rw [hl] <;> decide
  refine ⟨_, rfl, rfl, rfl, ?_, Nat.succ_pos _, ?_, ?_⟩
  · rcases hl with hl | hl <;> rw [hl] <;> rfl
  · simp only [cancel_idle_of_tracked w hT, List.nil_append]
  · simp only [dispatch_idle, cancel_idle_of_tracked w hT, List.nil_append,
      emit_signal_deferred_eq, if_neg (not_lt.mpr (le_of_lt hup)), emit_signal_effects]
    have hnc : ¬ (level = CRITICAL ∧ w.data.trigger_kernel_oom = true) := by
      rintro ⟨h, _⟩
      rcases hl with hl | hl <;> rw [hl] at h <;> exact absurd h (by decide)
    rw [if_neg hnc, hbyte]
    exact ⟨_, rfl, rfl, rfl, rfl, rfl, rfl⟩

/-- C6, witness: from the initial state a Low event at ratio 3/10 emits
nothing at once, and the next idle dispatch broadcasts code 50. -/
theorem C6_escalation_deferral_witness :
    run (initial false { low := 1, medium := 2, critical := 3 } 3)
      [Event.pressure 1 1000000 (3 / 10) { open_fd := 4, io_n := 1 },
       Event.idle { open_fd := 4, io_n := 1 }] =
    some
      [({ data :=
            { ret := 0, trigger_kernel_oom := false
              source_id := { low := 1, medium := 2, critical := 3 }
              last_trigger := { low := 1000000, medium := 0, critical := 0 }
              signal_timeout := 4, current_state := INVALID, next_state := LOW }
          ctx := { last_id := 4, idle := [4], quit := false } }, []),
       ({ data :=
            { ret := 0, trigger_kernel_oom := false
              source_id := { low := 1, medium := 2, critical := 3 }
              last_trigger := { low := 1000000, medium := 0, critical := 0 }
              signal_timeout := 0, current_state := LOW, next_state := INVALID }
          ctx := { last_id := 4, idle := [], quit := false } }, [Effect.signal 50])] ∧
    ∃ w1,
      memory_pressure_cb (initial false { low := 1, medium := 2, critical := 3 } 3)
        1 1000000 (3 / 10) { open_fd := 4, io_n := 1 } = some (w1, []) ∧
      w1.data.current_state = INVALID ∧
      w1.data.next_state = LOW ∧
      w1.data.last_trigger.get 0 LOW = 1000000 ∧
      0 < w1.data.signal_timeout ∧
      w1.ctx.idle = [w1.data.signal_timeout] ∧
      ∃ w2, dispatch_idle w1 { open_fd := 4, io_n := 1 } =
          (w2, [Effect.signal (if LOW = LOW then 50 else 100)]) ∧
        level_enum_to_byte LOW = (if LOW = LOW then 50 else 100) ∧
        w2.data.current_state = LOW ∧
        w2.data.next_state = INVALID ∧
        w2.data.signal_timeout = 0 ∧
        w2.ctx.idle = [] :=
  ⟨by decide!,
   C6_escalation_deferral (initial false { low := 1, medium := 2, critical := 3 } 3)
    1 LOW 1000000 (3 / 10) { open_fd := 4, io_n := 1 } { open_fd := 4, io_n := 1 }
    (by decide) (by decide) (Or.inl rfl) (by decide) (by norm_num)⟩

/-! ## One step, by cases -/

theorem single_tracked (w : World) (h : Single w) : Tracked w := by
  intro id hid
  rcases h with h | ⟨hp, h⟩
  · rw [h] at hid; exact absurd hid (List.not_mem_nil _)
  · rw [h] at hid
    exact ⟨hp, List.mem_singleton.mp hid⟩

theorem find_level_ne_invalid (d : LowMemoryMonitorData) (source_id : Nat)
    (level : LowMemoryLevelEnum) (h : find_level d source_id = some level) :
    level ≠ INVALID := by
  unfold find_level at h
  split_ifs at h <;> simp only [Option.some.injEq] at h <;> rw [← h] <;> decide

/-- What a step does to a state with at most one pending idle source: nothing
(veto, or idle with nothing pending), a direct confirmation, a suppression, a
deferral, a deferred confirmation, or a discarded deferred decision. -/
theorem step_inv (w w1 : World) (e : Event) (eff : List Effect) (hS : Single w)
    (h : step w e = some (w1, eff)) :
    w1.data.source_id = w.data.source_id ∧
    w1.data.trigger_kernel_oom = w.data.trigger_kernel_oom ∧
    Single w1 ∧
    ((w1 = w ∧ eff = []) ∨
     (∃ source_id current_time mem_ratio sysrq level,
        e = Event.pressure source_id current_time mem_ratio sysrq ∧
        find_level w.data source_id = some level ∧ mem_ratio < 0.5 ∧
        (w.data.last_trigger.get 0 level = 0 ∨
          current_time - w.data.last_trigger.get 0 level > RECOVERY_INTERVAL * G_USEC_PER_SEC) ∧
        w1.ctx.idle = [] ∧ w1.data.current_state = level ∧ w1.data.next_state = INVALID ∧
        w1.data.last_trigger =
          (if level = CRITICAL ∧ w.data.trigger_kernel_oom = true ∧
              sysrq_trigger_oom sysrq = false
            then w.data.last_trigger else w.data.last_trigger.set level current_time) ∧
        eff = Effect.signal (level_enum_to_byte level) ::
          (if level = CRITICAL ∧ w.data.trigger_kernel_oom = true
            then [Effect.oom_request] else [])) ∨
     (∃ source_id current_time mem_ratio sysrq,
        e = Event.pressure source_id current_time mem_ratio sysrq ∧
        w1.ctx.idle = [] ∧ w1.data = { w.data with signal_timeout := 0 } ∧ eff = []) ∨
     (∃ source_id current_time mem_ratio sysrq level,
        e = Event.pressure source_id current_time mem_ratio sysrq ∧
        find_level w.data source_id = some level ∧ mem_ratio < 0.5 ∧
        w.data.current_state.toInt < level.toInt ∧ level ≠ CRITICAL ∧
        w1.ctx.idle ≠ [] ∧ w1.data.current_state = w.data.current_state ∧
        w1.data.next_state = level ∧
        w1.data.last_trigger = w.data.last_trigger.set level current_time ∧ eff = []) ∨
     (∃ sysrq,
        e = Event.idle sysrq ∧ w.ctx.idle ≠ [] ∧
        w.data.current_state.toInt ≤ w.data.next_state.toInt ∧
        w1.ctx.idle = [] ∧ w1.data.current_state = w.data.next_state ∧
        w1.data.next_state = INVALID ∧ w1.data.last_trigger = w.data.last_trigger ∧
        eff = Effect.signal (level_enum_to_byte w.data.next_state) ::
          (if w.data.next_state = CRITICAL ∧ w.data.trigger_kernel_oom = true
            then [Effect.oom_request] else [])) ∨
     (∃ sysrq,
        e = Event.idle sysrq ∧ w.ctx.idle ≠ [] ∧
        w1.ctx.idle = [] ∧ w1.data = { w.data with signal_timeout := 0 } ∧ eff = [])) := by
  have hT := single_tracked w hS
  cases e with
  | pressure source_id current_time mem_ratio sysrq =>
    simp only [step] at h
    cases hf : find_level w.data source_id with
    | none => rw [memory_pressure_cb_none _ _ _ _ _ hf] at h; exact absurd h (by simp)
    | some level =>
      rw [memory_pressure_cb_eq _ _ level _ _ _ hf] at h
      split_ifs at h with hg hd hc
      · simp only [Option.some.injEq, Prod.mk.injEq] at h
        obtain ⟨rfl, rfl⟩ := h
        exact ⟨rfl, rfl, hS, Or.inl ⟨rfl, rfl⟩⟩
      · simp only [Option.some.injEq, Prod.mk.injEq] at h
        obtain ⟨rfl, rfl⟩ := h
        refine ⟨rfl, rfl, Or.inl (cancel_idle_of_tracked w hT), Or.inr (Or.inl
          ⟨source_id, current_time, mem_ratio, sysrq, level, rfl, hf, lt_of_not_ge hg, hc,
            cancel_idle_of_tracked w hT, rfl, rfl, ?_, ?_⟩)⟩
        · dsimp only
          by_cases hr : level = CRITICAL ∧ w.data.trigger_kernel_oom = true ∧
              sysrq_trigger_oom sysrq = false
          · rw [if_pos hr]
            have := (emit_signal_result (cancel_handle_level_deferred w).data level sysrq).mpr
              (by rw [cancel_data]; exact hr)
            rw [this]; rfl
          · rw [if_neg hr]
            have : (emit_signal (cancel_handle_level_deferred w).data level sysrq).2.2 = true := by
              by_contra hne
              rw [Bool.not_eq_true, emit_signal_result, cancel_data] at hne
              exact hr hne
            rw [this]; rfl
        · rw [emit_signal_effects, cancel_data]
      · simp only [Option.some.injEq, Prod.mk.injEq] at h
        obtain ⟨rfl, rfl⟩ := h
        refine ⟨by rw [cancel_data], by rw [cancel_data],
          Or.inl (cancel_idle_of_tracked w hT), Or.inr (Or.inr (Or.inl
          ⟨source_id, current_time, mem_ratio, sysrq, rfl, cancel_idle_of_tracked w hT,
            cancel_data w, rfl⟩))⟩
      · simp only [Option.some.injEq, Prod.mk.injEq] at h
        obtain ⟨rfl, rfl⟩ := h
        have hnot := not_or.mp hd
        refine ⟨rfl, rfl, Or.inr ⟨Nat.succ_pos _, ?_⟩, Or.inr (Or.inr (Or.inr (Or.inl
          ⟨source_id, current_time, mem_ratio, sysrq, level, rfl, hf, lt_of_not_ge hg,
            lt_of_not_ge hnot.1, hnot.2, ?_, rfl, rfl, rfl, rfl⟩)))⟩
        · simp only [cancel_idle_of_tracked w hT, List.nil_append]
        · simp
  | idle sysrq =>
    simp only [step, dispatch_idle, Option.some.injEq] at h
    cases hi : w.ctx.idle with
    | nil =>
      simp only [hi, Prod.mk.injEq] at h
      obtain ⟨rfl, rfl⟩ := h
      exact ⟨rfl, rfl, hS, Or.inl ⟨rfl, rfl⟩⟩
    | cons a l =>
      have hl : l = [] := by
        rcases hS with hS | ⟨_, hS⟩
        · rw [hS] at hi; exact absurd hi (by simp)
        · rw [hS] at hi
          simp only [List.cons.injEq] at hi
          exact hi.2.symm
      subst hl
      simp only [hi, Prod.mk.injEq] at h
      obtain ⟨rfl, rfl⟩ := h
      rw [emit_signal_deferred_eq]
      by_cases hn : w.data.next_state.toInt < w.data.current_state.toInt
      · rw [if_pos hn]
        exact ⟨rfl, rfl, Or.inl rfl, Or.inr (Or.inr (Or.inr (Or.inr (Or.inr
          ⟨sysrq, rfl, by simp, rfl, rfl, rfl⟩))))⟩
      · rw [if_neg hn]
        refine ⟨rfl, rfl, Or.inl rfl, Or.inr (Or.inr (Or.inr (Or.inr (Or.inl
          ⟨sysrq, rfl, by simp, le_of_not_lt hn, rfl, rfl, rfl, rfl, ?_⟩))))⟩
        rw [emit_signal_effects]

/-! ## Runs -/

theorem run_forall (P : World → Prop) (Q : World → List Effect → Prop) (E : Event → Prop)
    (hstep : ∀ w e w1 eff, P w → E e → step w e = some (w1, eff) → P w1 ∧ Q w1 eff) :
    ∀ (evs : List Event) (w : World) (rs : List (World × List Effect)),
      (∀ e ∈ evs, E e) → P w → run w evs = some rs → ∀ p ∈ rs, P p.1 ∧ Q p.1 p.2 := by
  intro evs
  induction evs with
  | nil =>
    intro w rs _ _ h p hp
    simp only [run, Option.some.injEq] at h
    rw [← h] at hp
    exact absurd hp (List.not_mem_nil _)
  | cons e es ih =>
    intro w rs hE hP h p hp
    unfold run at h
    cases hs : step w e with
    | none => simp [hs] at h
    | some r =>
      cases hr : run r.1 es with
      | none => simp [hs, hr] at h
      | some rs1 =>
        simp only [hs, hr, Option.some.injEq] at h
        have h1 := hstep w e r.1 r.2 hP (hE e (List.mem_cons_self _ _)) hs
        rw [← h] at hp
        rcases List.mem_cons.mp hp with hp | hp
        · rw [hp]; exact h1
        · exact ih r.1 rs1 (fun e1 he1 => hE e1 (List.mem_cons_of_mem _ he1)) h1.1 hr p hp

theorem exec_forall (P : World → Prop) (E : Event → Prop)
    (hstep : ∀ w e w1 eff, P w → E e → step w e = some (w1, eff) → P w1) :
    ∀ (evs : List Event) (w w1 : World),
      (∀ e ∈ evs, E e) → P w → exec w evs = some w1 → P w1 := by
  intro evs
  induction evs with
  | nil =>
    intro w w1 _ hP h
    simp only [exec, Option.some.injEq] at h
    rw [← h]; exact hP
  | cons e es ih =>
    intro w w1 hE hP h
    unfold exec at h
    cases hs : step w e with
    | none => simp [hs] at h
    | some r =>
      simp only [hs] at h
      exact ih r.1 w1 (fun e1 he1 => hE e1 (List.mem_cons_of_mem _ he1))
        (hstep w e r.1 r.2 hP (hE e (List.mem_cons_self _ _)) hs) h

theorem run_some (P : World → Prop) (E : Event → Prop)
    (hstep : ∀ w e w1 eff, P w → E e → step w e = some (w1, eff) → P w1)
    (hsome : ∀ w e, P w → E e → ∃ r, step w e = some r) :
    ∀ (evs : List Event) (w : World),
      (∀ e ∈ evs, E e) → P w → ∃ rs, run w evs = some rs := by
  intro evs
  induction evs with
  | nil => intro w _ _; exact ⟨[], rfl⟩
  | cons e es ih =>
    intro w hE hP
    obtain ⟨r, hr⟩ := hsome w e hP (hE e (List.mem_cons_self _ _))
    obtain ⟨rs, hrs⟩ := ih r.1 (fun e1 he1 => hE e1 (List.mem_cons_of_mem _ he1))
      (hstep w e r.1 r.2 hP (hE e (List.mem_cons_self _ _)) hr)
    exact ⟨r :: rs, by simp [run, hr, hrs]⟩

theorem find_level_congr (d1 d2 : LowMemoryMonitorData) (source_id : Nat)
    (h : d1.source_id = d2.source_id) : find_level d1 source_id = find_level d2 source_id := by
  unfold find_level
  rw [h]

theorem step_some (w : World) (e : Event) (h : Registered w.data e) :
    ∃ r, step w e = some r := by
  cases e with
  | pressure source_id current_time mem_ratio sysrq =>
    simp only [Registered] at h
    cases hf : find_level w.data source_id with
    | none => exact absurd hf h
    | some level =>
      simp only [step]
      rw [memory_pressure_cb_eq _ _ level _ _ _ hf]
      split_ifs <;> exact ⟨_, rfl⟩
  | idle sysrq => exact ⟨_, rfl⟩

theorem registered_congr (d1 d2 : LowMemoryMonitorData) (e : Event)
    (h : d1.source_id = d2.source_id) (hr : Registered d1 e) : Registered d2 e := by
  cases e with
  | pressure source_id current_time mem_ratio sysrq =>
    simp only [Registered] at hr ⊢
    rw [← find_level_congr d1 d2 source_id h]; exact hr
  | idle sysrq => trivial

theorem toInt_lt_ne_invalid (a b : LowMemoryLevelEnum) (h : a.toInt < b.toInt) :
    b ≠ INVALID := by
  cases a <;> cases b <;> first | decide | (exfalso; revert h; decide)

theorem level_enum_to_byte_real (level : LowMemoryLevelEnum) (h : level ≠ INVALID) :
    level_enum_to_byte level = 50 ∨ level_enum_to_byte level = 100 ∨
      level_enum_to_byte level = 255 := by
  cases level
  · exact absurd rfl h
  · exact Or.inl rfl
  · exact Or.inr (Or.inl rfl)
  · exact Or.inr (Or.inr rfl)

theorem mem_signal_effects (c b : Nat) (q : Prop) [Decidable q]
    (h : Effect.signal c ∈ Effect.signal b :: (if q then [Effect.oom_request] else [])) :
    c = b := by
  split_ifs at h <;> simpa using h

/-- The invariant of the runs from the initial state: at most one idle source
is pending, and while one is pending `next_state` is above `current_state`. -/
theorem step_pending (w w1 : World) (e : Event) (eff : List Effect)
    (hP : Single w ∧ (w.ctx.idle ≠ [] → w.data.current_state.toInt < w.data.next_state.toInt))
    (h : step w e = some (w1, eff)) :
    (Single w1 ∧ (w1.ctx.idle ≠ [] → w1.data.current_state.toInt < w1.data.next_state.toInt)) ∧
    ((∀ c, Effect.signal c ∈ eff →
        (c = 50 ∨ c = 100 ∨ c = 255) ∧ c = level_enum_to_byte w1.data.current_state) ∧
      (w1.ctx.idle ≠ [] → w1.data.next_state ≠ INVALID)) := by
  obtain ⟨hS, hN⟩ := hP
  obtain ⟨_, _, hS1, hc⟩ := step_inv w w1 e eff hS h
  have key : (w1.ctx.idle ≠ [] → w1.data.current_state.toInt < w1.data.next_state.toInt) ∧
      (∀ c, Effect.signal c ∈ eff →
        (c = 50 ∨ c = 100 ∨ c = 255) ∧ c = level_enum_to_byte w1.data.current_state) := by
    rcases hc with ⟨rfl, rfl⟩ | ⟨sid, t, r, env, L, rfl, hf, _, _, hi, hcur, _, _, rfl⟩ |
      ⟨sid, t, r, env, rfl, hi, _, rfl⟩ |
      ⟨sid, t, r, env, L, rfl, hf, _, hlt, _, _, hcur, hnext, _, rfl⟩ |
      ⟨env, rfl, hi0, _, hi, hcur, _, _, rfl⟩ | ⟨env, rfl, _, hi, _, rfl⟩
    · exact ⟨hN, by simp⟩
    · refine ⟨fun hne => absurd hi hne, fun c hc => ?_⟩
      rw [mem_signal_effects _ _ _ hc, hcur]
      exact ⟨level_enum_to_byte_real L (find_level_ne_invalid _ _ _ hf), rfl⟩
    · exact ⟨fun hne => absurd hi hne, by simp⟩
    · exact ⟨fun _ => by rw [hcur, hnext]; exact hlt, by simp⟩
    · refine ⟨fun hne => absurd hi hne, fun c hc => ?_⟩
      rw [mem_signal_effects _ _ _ hc, hcur]
      exact ⟨level_enum_to_byte_real _ (toInt_lt_ne_invalid _ _ (hN hi0)), rfl⟩
    · exact ⟨fun hne => absurd hi hne, by simp⟩
  exact ⟨⟨hS1, key.1⟩, key.2, fun hne => toInt_lt_ne_invalid _ _ (key.1 hne)⟩

/-! ## C10 -/

/-- C10, severity codes: `level_enum_to_byte` maps `INVALID`, `LOW`, `MEDIUM`,
`CRITICAL` to 0, 50, 100, 255. Every sequence of idle dispatches and trigger
events from registered watches runs from the initial state without a failed
assertion, and at every step of the run each broadcast code is 50, 100 or 255
and is the code of the `current_state` that step stores; whenever an idle
source is pending afterwards, `next_state` is not `INVALID`, so the deferred
task never broadcasts 0. -/
theorem C10_severity_codes (trigger_kernel_oom : Bool) (ids : PerLevel Nat) (last_id : Nat)
    (evs : List Event)
    (hreg : ∀ e ∈ evs, Registered (initial_data trigger_kernel_oom ids) e) :
    level_enum_to_byte INVALID = 0 ∧ level_enum_to_byte LOW = 50 ∧
    level_enum_to_byte MEDIUM = 100 ∧ level_enum_to_byte CRITICAL = 255 ∧
    ∃ rs, run (initial trigger_kernel_oom ids last_id) evs = some rs ∧
      ∀ p ∈ rs,
        (∀ c, Effect.signal c ∈ p.2 →
          (c = 50 ∨ c = 100 ∨ c = 255) ∧ c = level_enum_to_byte p.1.data.current_state) ∧
        (p.1.ctx.idle ≠ [] → p.1.data.next_state ≠ INVALID) := by
  refine ⟨rfl, rfl, rfl, rfl, ?_⟩
  have h0 : (Single (initial trigger_kernel_oom ids last_id) ∧
      ((initial trigger_kernel_oom ids last_id).ctx.idle ≠ [] →
        (initial trigger_kernel_oom ids last_id).data.current_state.toInt <
          (initial trigger_kernel_oom ids last_id).data.next_state.toInt)) ∧
      (initial trigger_kernel_oom ids last_id).data.source_id = ids :=
    ⟨⟨Or.inl rfl, fun h => absurd rfl h⟩, rfl⟩
  obtain ⟨rs, hrs⟩ := run_some
    (fun w => (Single w ∧ (w.ctx.idle ≠ [] →
      w.data.current_state.toInt < w.data.next_state.toInt)) ∧ w.data.source_id = ids)
    (Registered (initial_data trigger_kernel_oom ids))
    (fun w e w1 eff hP _ hs =>
      ⟨(step_pending w w1 e eff hP.1 hs).1,
        (step_inv w w1 e eff hP.1.1 hs).1.trans hP.2⟩)
    (fun w e hP hE => step_some w e (registered_congr _ _ e (by rw [hP.2]; rfl) hE))
    evs _ hreg h0
  refine ⟨rs, hrs, ?_⟩
  intro p hp
  exact (run_forall
    (fun w => Single w ∧ (w.ctx.idle ≠ [] →
      w.data.current_state.toInt < w.data.next_state.toInt))
    (fun w1 eff => (∀ c, Effect.signal c ∈ eff →
        (c = 50 ∨ c = 100 ∨ c = 255) ∧ c = level_enum_to_byte w1.data.current_state) ∧
      (w1.ctx.idle ≠ [] → w1.data.next_state ≠ INVALID))
    (fun _ => True)
    (fun w e w1 eff hP _ hs => step_pending w w1 e eff hP hs)
    evs _ rs (fun _ _ => trivial) h0.1 hrs p hp).2

/-- C10, witness: the spec's example run (Low, idle, Low 2 s later, Critical
1 s after that) broadcasts 50 and then 255. -/
theorem C10_severity_codes_witness :
    (run (initial true { low := 1, medium := 2, critical := 3 } 3)
      [Event.pressure 1 1000000 (3 / 10) { open_fd := 4, io_n := 1 },
       Event.idle { open_fd := 4, io_n := 1 },
       Event.pressure 1 3000000 (3 / 10) { open_fd := 4, io_n := 1 },
       Event.pressure 3 4000000 (3 / 10) { open_fd := 4, io_n := 1 }]).map
      (List.map (fun p => (p.1.data.current_state, p.2))) =
    some [(INVALID, []), (LOW, [Effect.signal 50]), (LOW, []),
          (CRITICAL, [Effect.signal 255, Effect.oom_request])] ∧
    (level_enum_to_byte INVALID = 0 ∧ level_enum_to_byte LOW = 50 ∧
    level_enum_to_byte MEDIUM = 100 ∧ level_enum_to_byte CRITICAL = 255 ∧
    ∃ rs, run (initial true { low := 1, medium := 2, critical := 3 } 3)
      [Event.pressure 1 1000000 (3 / 10) { open_fd := 4, io_n := 1 },
       Event.idle { open_fd := 4, io_n := 1 },
       Event.pressure 1 3000000 (3 / 10) { open_fd := 4, io_n := 1 },
       Event.pressure 3 4000000 (3 / 10) { open_fd := 4, io_n := 1 }] = some rs ∧
      ∀ p ∈ rs,
        (∀ c, Effect.signal c ∈ p.2 →
          (c = 50 ∨ c = 100 ∨ c = 255) ∧ c = level_enum_to_byte p.1.data.current_state) ∧
        (p.1.ctx.idle ≠ [] → p.1.data.next_state ≠ INVALID)) :=
  ⟨by decide!,
   C10_severity_codes true { low := 1, medium := 2, critical := 3 } 3
    [Event.pressure 1 1000000 (3 / 10) { open_fd := 4, io_n := 1 },
     Event.idle { open_fd := 4, io_n := 1 },
     Event.pressure 1 3000000 (3 / 10) { open_fd := 4, io_n := 1 },
     Event.pressure 3 4000000 (3 / 10) { open_fd := 4, io_n := 1 }]
    (by
      intro e he
      simp only [List.mem_cons, List.mem_singleton, List.not_mem_nil, or_false] at he
      rcases he with rfl | rfl | rfl | rfl <;> simp [Registered, find_level, initial_data])⟩

/-! ## C8 -/

/-- While no idle source is pending for `level` and no trigger event for
`level` passes the gate, a step does not broadcast the code of `level`. -/
theorem step_not_emitted (d0 : LowMemoryMonitorData) (level : LowMemoryLevelEnum)
    (w w1 : World) (e : Event) (eff : List Effect)
    (hP : Single w ∧ w.data.source_id = d0.source_id ∧
      (w.ctx.idle ≠ [] → w.data.next_state ≠ level))
    (hE : ¬ TriggerFor d0 level e) (h : step w e = some (w1, eff)) :
    (Single w1 ∧ w1.data.source_id = d0.source_id ∧
      (w1.ctx.idle ≠ [] → w1.data.next_state ≠ level)) ∧
    Effect.signal (level_enum_to_byte level) ∉ eff := by
  obtain ⟨hS, hsrc, hN⟩ := hP
  obtain ⟨hsrc1, _, hS1, hc⟩ := step_inv w w1 e eff hS h
  refine ⟨⟨hS1, hsrc1.trans hsrc, ?_⟩, ?_⟩
  · rcases hc with ⟨rfl, rfl⟩ | ⟨sid, t, r, env, L, rfl, hf, _, _, hi, _, _, _, rfl⟩ |
      ⟨sid, t, r, env, rfl, hi, _, rfl⟩ |
      ⟨sid, t, r, env, L, rfl, hf, hr, _, _, _, _, hnext, _, rfl⟩ |
      ⟨env, rfl, _, _, hi, _, _, _, rfl⟩ | ⟨env, rfl, _, hi, _, rfl⟩
    · exact hN
    · exact fun hne => absurd hi hne
    · exact fun hne => absurd hi hne
    · intro _ hL
      rw [hnext] at hL
      rw [hL, find_level_congr w.data d0 sid hsrc] at hf
      exact hE ⟨hf, hr⟩
    · exact fun hne => absurd hi hne
    · exact fun hne => absurd hi hne
  · intro hmem
    rcases hc with ⟨rfl, rfl⟩ | ⟨sid, t, r, env, L, rfl, hf, hr, _, _, _, _, _, rfl⟩ |
      ⟨sid, t, r, env, rfl, _, _, rfl⟩ |
      ⟨sid, t, r, env, L, rfl, _, _, _, _, _, _, _, _, rfl⟩ |
      ⟨env, rfl, hi0, _, _, _, _, _, rfl⟩ | ⟨env, rfl, _, _, _, rfl⟩
    · exact absurd hmem (List.not_mem_nil _)
    · have hL := level_enum_to_byte_inj _ _ (mem_signal_effects _ _ _ hmem)
      rw [← hL, find_level_congr w.data d0 sid hsrc] at hf
      exact hE ⟨hf, hr⟩
    · exact absurd hmem (List.not_mem_nil _)
    · exact absurd hmem (List.not_mem_nil _)
    · have hL := level_enum_to_byte_inj _ _ (mem_signal_effects _ _ _ hmem)
      exact hN hi0 hL.symm
    · exact absurd hmem (List.not_mem_nil _)

/-- C8, a superseded deferred escalation is never emitted: in a state whose
pending idle sources are tracked by `signal_timeout`, let a Low or Medium
event below the gate, for a level above `current_state`, arm the deferred
task, and let a Critical event below the gate be handled next. The Critical
event removes the pending idle source and sets `signal_timeout` to 0, does not
broadcast the deferred level, and confirms Critical (state `CRITICAL`, code
255) when its recovery check passes. In no run from there whose events contain
no trigger event for the deferred level below the gate is the code of that
level broadcast by any step. -/
theorem C8_superseded_escalation_not_emitted (w : World) (deferred_id critical_id : Nat)
    (level : LowMemoryLevelEnum) (t1 t2 : Int) (r1 r2 : ℚ) (sysrq1 sysrq2 : FileEnv)
    (hT : Tracked w)
    (hf : find_level w.data deferred_id = some level)
    (hl : level = LOW ∨ level = MEDIUM)
    (hup : w.data.current_state.toInt < level.toInt)
    (hfc : find_level w.data critical_id = some CRITICAL)
    (hg1 : r1 < 0.5) (hg2 : r2 < 0.5) :
    ∃ w1 w2 eff2,
      memory_pressure_cb w deferred_id t1 r1 sysrq1 = some (w1, []) ∧
      0 < w1.data.signal_timeout ∧ w1.ctx.idle = [w1.data.signal_timeout] ∧
      memory_pressure_cb w1 critical_id t2 r2 sysrq2 = some (w2, eff2) ∧
      w2.data.signal_timeout = 0 ∧ w2.ctx.idle = [] ∧
      Effect.signal (level_enum_to_byte level) ∉ eff2 ∧
      ((w1.data.last_trigger.get 0 CRITICAL = 0 ∨
          t2 - w1.data.last_trigger.get 0 CRITICAL > RECOVERY_INTERVAL * G_USEC_PER_SEC) →
        w2.data.current_state = CRITICAL ∧ Effect.signal 255 ∈ eff2) ∧
      ∀ evs rs, (∀ e ∈ evs, ¬ TriggerFor w.data level e) → run w2 evs = some rs →
        ∀ p ∈ rs, Effect.signal (level_enum_to_byte level) ∉ p.2 := by
  have hd : ¬ (level.toInt ≤ w.data.current_state.toInt ∨ level = CRITICAL) := by
    rintro (h | h)
    · omega
    · rcases hl with hl | hl <;> rw [hl] at h <;> exact absurd h (by decide)
  have hne : level_enum_to_byte level ≠ 255 := by
    rcases hl with hl | hl <;> rw [hl] <;> decide
  have e1 := memory_pressure_cb_eq w deferred_id level t1 r1 sysrq1 hf
  rw [if_neg (not_le.mpr hg1), if_neg hd] at e1
  obtain ⟨w1, hw1, hsrc1, hpos1, hidle1⟩ :
      ∃ w1, memory_pressure_cb w deferred_id t1 r1 sysrq1 = some (w1, []) ∧
        w1.data.source_id = w.data.source_id ∧ 0 < w1.data.signal_timeout ∧
        w1.ctx.idle = [w1.data.signal_timeout] :=
    ⟨_, e1, rfl, Nat.succ_pos _, by simp only [cancel_idle_of_tracked w hT, List.nil_append]⟩
  have hT1 : Tracked w1 := single_tracked w1 (Or.inr ⟨hpos1, hidle1⟩)
  have hfc1 : find_level w1.data critical_id = some CRITICAL := by
    rw [find_level_congr w1.data w.data critical_id hsrc1]; exact hfc
  have e2 := memory_pressure_cb_eq w1 critical_id CRITICAL t2 r2 sysrq2 hfc1
  rw [if_neg (not_le.mpr hg2), if_pos (Or.inr rfl)] at e2
  have hrun : ∀ w2 : World, w2.ctx.idle = [] → w2.data.source_id = w.data.source_id →
      ∀ evs rs, (∀ e ∈ evs, ¬ TriggerFor w.data level e) → run w2 evs = some rs →
        ∀ p ∈ rs, Effect.signal (level_enum_to_byte level) ∉ p.2 := by
    intro w2 hi hs evs rs hE hr p hp
    exact (run_forall
      (fun v => Single v ∧ v.data.source_id = w.data.source_id ∧
        (v.ctx.idle ≠ [] → v.data.next_state ≠ level))
      (fun _ eff => Effect.signal (level_enum_to_byte level) ∉ eff)
      (fun e => ¬ TriggerFor w.data level e)
      (fun v e v1 eff hP hEe hs => step_not_emitted w.data level v v1 e eff hP hEe hs)
      evs w2 rs hE ⟨Or.inl hi, hs, fun hne => absurd hi hne⟩ hr p hp).2
  by_cases hc : w1.data.last_trigger.get 0 CRITICAL = 0 ∨
      t2 - w1.data.last_trigger.get 0 CRITICAL > RECOVERY_INTERVAL * G_USEC_PER_SEC
  · rw [if_pos hc] at e2
    refine ⟨w1, _, _, hw1, hpos1, hidle1, e2, rfl, cancel_idle_of_tracked w1 hT1, ?_,
      fun _ => ⟨rfl, ?_⟩, hrun _ (cancel_idle_of_tracked w1 hT1) hsrc1⟩
    · intro hmem
      exact hne (mem_emit_effects _ _ _ _ hmem)
    · rw [emit_signal_effects]
      exact List.mem_cons_self _ _
  · rw [if_neg hc] at e2
    refine ⟨w1, _, _, hw1, hpos1, hidle1, e2, by rw [cancel_data],
      cancel_idle_of_tracked w1 hT1, List.not_mem_nil _, fun h => absurd h hc,
      hrun _ (cancel_idle_of_tracked w1 hT1) (by rw [cancel_data]; exact hsrc1)⟩

/-- C8, witness: from the initial state, Medium at 1 s arms the deferred task
and Critical at 1.1 s supersedes it. -/
theorem C8_superseded_escalation_not_emitted_witness :
    run (initial true { low := 1, medium := 2, critical := 3 } 3)
      [Event.pressure 2 1000000 (3 / 10) { open_fd := 4, io_n := 1 },
       Event.pressure 3 1100000 (3 / 10) { open_fd := 4, io_n := 1 },
       Event.idle { open_fd := 4, io_n := 1 }] =
    some
      [({ data :=
            { ret := 0, trigger_kernel_oom := true
              source_id := { low := 1, medium := 2, critical := 3 }
              last_trigger := { low := 0, medium := 1000000, critical := 0 }
              signal_timeout := 4, current_state := INVALID, next_state := MEDIUM }
          ctx := { last_id := 4, idle := [4], quit := false } }, []),
       ({ data :=
            { ret := 0, trigger_kernel_oom := true
              source_id := { low := 1, medium := 2, critical := 3 }
              last_trigger := { low := 0, medium := 1000000, critical := 1100000 }
              signal_timeout := 0, current_state := CRITICAL, next_state := INVALID }
          ctx := { last_id := 4, idle := [], quit := false } },
        [Effect.signal 255, Effect.oom_request]),
       ({ data :=
            { ret := 0, trigger_kernel_oom := true
              source_id := { low := 1, medium := 2, critical := 3 }
              last_trigger := { low := 0, medium := 1000000, critical := 1100000 }
              signal_timeout := 0, current_state := CRITICAL, next_state := INVALID }
          ctx := { last_id := 4, idle := [], quit := false } }, [])] ∧
    ∃ w1 w2 eff2,
      memory_pressure_cb (initial true { low := 1, medium := 2, critical := 3 } 3)
        2 1000000 (3 / 10) { open_fd := 4, io_n := 1 } = some (w1, []) ∧
      0 < w1.data.signal_timeout ∧ w1.ctx.idle = [w1.data.signal_timeout] ∧
      memory_pressure_cb w1 3 1100000 (3 / 10) { open_fd := 4, io_n := 1 } = some (w2, eff2) ∧
      w2.data.signal_timeout = 0 ∧ w2.ctx.idle = [] ∧
      Effect.signal (level_enum_to_byte MEDIUM) ∉ eff2 ∧
      ((w1.data.last_trigger.get 0 CRITICAL = 0 ∨
          1100000 - w1.data.last_trigger.get 0 CRITICAL > RECOVERY_INTERVAL * G_USEC_PER_SEC) →
        w2.data.current_state = CRITICAL ∧ Effect.signal 255 ∈ eff2) ∧
      ∀ evs rs,
        (∀ e ∈ evs,
          ¬ TriggerFor (initial true { low := 1, medium := 2, critical := 3 } 3).data MEDIUM e) →
        run w2 evs = some rs →
        ∀ p ∈ rs, Effect.signal (level_enum_to_byte MEDIUM) ∉ p.2 :=
  ⟨by decide!,
   C8_superseded_escalation_not_emitted
    (initial true { low := 1, medium := 2, critical := 3 } 3) 2 3 MEDIUM 1000000 1100000
    (3 / 10) (3 / 10) { open_fd := 4, io_n := 1 } { open_fd := 4, io_n := 1 }
    (by decide) (by decide) (Or.inr rfl) (by decide) (by decide) (by norm_num) (by norm_num)⟩

/-! ## C7 -/

theorem get_set (a : PerLevel Int) (k l : LowMemoryLevelEnum) (v : Int) :
    (a.set k v).get 0 l = if k = l ∧ k ≠ INVALID then v else a.get 0 l := by
  cases k <;> cases l <;> simp [PerLevel.get, PerLevel.set]

/-- While an idle source is pending, `last_trigger` of `next_state` is the time
of one of the trigger events seen. -/
theorem step_stamp (S : List Int) (w w1 : World) (e : Event) (eff : List Effect)
    (hP : Single w ∧ (w.ctx.idle ≠ [] → w.data.last_trigger.get 0 w.data.next_state ∈ S))
    (hE : ∀ t, event_time e = some t → t ∈ S) (h : step w e = some (w1, eff)) :
    Single w1 ∧ (w1.ctx.idle ≠ [] → w1.data.last_trigger.get 0 w1.data.next_state ∈ S) := by
  obtain ⟨hS, hN⟩ := hP
  obtain ⟨_, _, hS1, hc⟩ := step_inv w w1 e eff hS h
  refine ⟨hS1, ?_⟩
  rcases hc with ⟨rfl, rfl⟩ | ⟨sid, t, r, env, L, rfl, hf, _, _, hi, _, _, _, rfl⟩ |
    ⟨sid, t, r, env, rfl, hi, _, rfl⟩ |
    ⟨sid, t, r, env, L, rfl, hf, hr, _, _, _, _, hnext, hlt, rfl⟩ |
    ⟨env, rfl, _, _, hi, _, _, _, rfl⟩ | ⟨env, rfl, _, hi, _, rfl⟩
  · exact hN
  · exact fun hne => absurd hi hne
  · exact fun hne => absurd hi hne
  · intro _
    rw [hnext, hlt, get_set, if_pos ⟨rfl, find_level_ne_invalid _ _ _ hf⟩]
    exact hE t rfl
  · exact fun hne => absurd hi hne
  · exact fun hne => absurd hi hne

/-- A step at a time not before `s` keeps `last_trigger` of a level at or
above `s`. -/
theorem step_stamp_mono (s : Int) (level : LowMemoryLevelEnum) (w w1 : World) (e : Event)
    (eff : List Effect)
    (hP : Single w ∧ s ≤ w.data.last_trigger.get 0 level)
    (hE : ∀ t, event_time e = some t → s ≤ t) (h : step w e = some (w1, eff)) :
    Single w1 ∧ s ≤ w1.data.last_trigger.get 0 level := by
  obtain ⟨hS, hN⟩ := hP
  obtain ⟨_, _, hS1, hc⟩ := step_inv w w1 e eff hS h
  refine ⟨hS1, ?_⟩
  rcases hc with ⟨rfl, rfl⟩ | ⟨sid, t, r, env, L, rfl, hf, _, _, _, _, _, hlt, rfl⟩ |
    ⟨sid, t, r, env, rfl, _, hd, rfl⟩ |
    ⟨sid, t, r, env, L, rfl, hf, hr, _, _, _, _, _, hlt, rfl⟩ |
    ⟨env, rfl, _, _, _, _, _, hlt, rfl⟩ | ⟨env, rfl, _, _, hd, rfl⟩
  · exact hN
  · rw [hlt]
    split_ifs
    · exact hN
    · rw [get_set]
      split_ifs
      · exact hE t rfl
      · exact hN
  · rw [hd]; exact hN
  · rw [hlt, get_set]
    split_ifs
    · exact hE t rfl
    · exact hN
  · rw [hlt]; exact hN
  · rw [hd]; exact hN

/-- C7, counterexample: from the initial state, Medium at 1 s is deferred and
confirmed on idle (code 100), Low at 2 s is confirmed directly (code 50), and
Medium at 3 s is again an escalation, deferred and confirmed on idle: code 100
is broadcast twice, for trigger events 2 s apart. Second run: with the OOM
request failing, Critical at 1 s and Critical at 2 s both broadcast 255. -/
theorem C7_counterexample :
    (run (initial true { low := 1, medium := 2, critical := 3 } 3)
      [Event.pressure 2 1000000 (3 / 10) { open_fd := 4, io_n := 1 },
       Event.idle { open_fd := 4, io_n := 1 },
       Event.pressure 1 2000000 (3 / 10) { open_fd := 4, io_n := 1 },
       Event.pressure 2 3000000 (3 / 10) { open_fd := 4, io_n := 1 },
       Event.idle { open_fd := 4, io_n := 1 }]).map (List.map (fun p => p.2)) =
    some [[], [Effect.signal 100], [Effect.signal 50], [], [Effect.signal 100]] ∧
    (3000000 : Int) - 1000000 < RECOVERY_INTERVAL * G_USEC_PER_SEC ∧
    (run (initial true { low := 1, medium := 2, critical := 3 } 3)
      [Event.pressure 3 1000000 (3 / 10) { open_fd := -1, io_n := -1 },
       Event.pressure 3 2000000 (3 / 10) { open_fd := -1, io_n := -1 }]).map
      (List.map (fun p => p.2)) =
    some [[Effect.signal 255, Effect.oom_request], [Effect.signal 255, Effect.oom_request]] := by
  decide!

theorem level_enum_to_byte_strict (a b : LowMemoryLevelEnum) (h : a.toInt < b.toInt) :
    level_enum_to_byte a < level_enum_to_byte b := by
  cases a <;> cases b <;> first | decide | (exfalso; revert h; decide)

/-- A step changes `current_state` only by broadcasting the code of the new
`current_state`. -/
theorem step_current (w w1 : World) (e : Event) (eff : List Effect) (hS : Single w)
    (h : step w e = some (w1, eff)) :
    w1.data.current_state = w.data.current_state ∨
      Effect.signal (level_enum_to_byte w1.data.current_state) ∈ eff := by
  obtain ⟨_, _, _, hc⟩ := step_inv w w1 e eff hS h
  rcases hc with ⟨rfl, rfl⟩ | ⟨sid, t, r, env, L, rfl, _, _, _, _, hcur, _, _, rfl⟩ |
    ⟨sid, t, r, env, rfl, _, hd, rfl⟩ |
    ⟨sid, t, r, env, L, rfl, _, _, _, _, _, hcur, _, _, rfl⟩ |
    ⟨env, rfl, _, _, _, hcur, _, _, rfl⟩ | ⟨env, rfl, _, _, hd, rfl⟩
  · exact Or.inl rfl
  · exact Or.inr (by rw [hcur]; exact List.mem_cons_self _ _)
  · exact Or.inl (by rw [hd])
  · exact Or.inl hcur
  · exact Or.inr (by rw [hcur]; exact List.mem_cons_self _ _)
  · exact Or.inl (by rw [hd])

theorem run_of_exec :
    ∀ (evs : List Event) (w w1 : World), exec w evs = some w1 → ∃ rs, run w evs = some rs := by
  intro evs
  induction evs with
  | nil => intro w w1 _; exact ⟨[], rfl⟩
  | cons e es ih =>
    intro w w1 h
    unfold exec at h
    cases hs : step w e with
    | none => simp [hs] at h
    | some r =>
      simp only [hs] at h
      obtain ⟨rs, hrs⟩ := ih r.1 w1 h
      exact ⟨r :: rs, by simp [run, hs, hrs]⟩

/-- Along a run that starts with `current_state` at or above `level`, either
some step broadcasts a code below the code of `level`, or `current_state` is
still at or above `level` at the end. -/
theorem exec_no_lower (level : LowMemoryLevelEnum) :
    ∀ (evs : List Event) (w w3 : World),
      (Single w ∧ (w.ctx.idle ≠ [] → w.data.current_state.toInt < w.data.next_state.toInt)) →
      level.toInt ≤ w.data.current_state.toInt →
      exec w evs = some w3 →
      (∃ rs, run w evs = some rs ∧
        ∃ p ∈ rs, ∃ c, Effect.signal c ∈ p.2 ∧ c < level_enum_to_byte level) ∨
      ((Single w3 ∧
          (w3.ctx.idle ≠ [] → w3.data.current_state.toInt < w3.data.next_state.toInt)) ∧
        level.toInt ≤ w3.data.current_state.toInt) := by
  intro evs
  induction evs with
  | nil =>
    intro w w3 hP hle h
    simp only [exec, Option.some.injEq] at h
    subst h
    exact Or.inr ⟨hP, hle⟩
  | cons e es ih =>
    intro w w3 hP hle h
    unfold exec at h
    cases hs : step w e with
    | none => simp [hs] at h
    | some r =>
      simp only [hs] at h
      have hP1 := (step_pending w r.1 e r.2 hP hs).1
      by_cases hr : level.toInt ≤ r.1.data.current_state.toInt
      · rcases ih r.1 w3 hP1 hr h with ⟨rs, hrs, p, hp, hlow⟩ | hright
        · exact Or.inl ⟨r :: rs, by simp [run, hs, hrs], p, List.mem_cons_of_mem _ hp, hlow⟩
        · exact Or.inr hright
      · obtain ⟨rs, hrs⟩ := run_of_exec es r.1 w3 h
        have hlt := lt_of_not_ge hr
        rcases step_current w r.1 e r.2 hP.1 hs with hsame | hsig
        · rw [hsame] at hlt
          omega
        · exact Or.inl ⟨r :: rs, by simp [run, hs, hrs], r, List.mem_cons_self _ _,
            _, hsig, level_enum_to_byte_strict _ _ hlt⟩

/-- C7, amended: take a run from the initial state whose trigger timestamps
are positive and non-decreasing, and let a step broadcast the code of a level,
not as a Critical confirmation whose OOM request failed. If a later trigger
event at time `t2` broadcasts the same code in its own handling pass, `t2` is
more than 15 s after the time recorded in `last_trigger` for the first
emission. If a later dispatch of the deferred task broadcasts the same code,
some step between the two broadcast the code of a lower level. The recorded
time is the timestamp of the first step when it is a trigger event, and the
timestamp of an earlier trigger event when the first step is the deferred
task. -/
theorem C7_recovery_interval_unless_lower_level_between
    (trigger_kernel_oom : Bool) (ids : PerLevel Nat) (last_id : Nat)
    (pre mid : List Event) (e1 e2 : Event) (w1 w2 w3 w4 : World) (eff1 eff2 : List Effect)
    (level : LowMemoryLevelEnum)
    (hord : (List.filterMap event_time (pre ++ [e1] ++ (mid ++ [e2]))).Pairwise
      (fun a b => a ≤ b))
    (hpos : ∀ t ∈ List.filterMap event_time (pre ++ [e1]), 0 < t)
    (h1 : exec (initial trigger_kernel_oom ids last_id) pre = some w1)
    (h2 : step w1 e1 = some (w2, eff1))
    (hemit1 : Effect.signal (level_enum_to_byte level) ∈ eff1)
    (hrec : Effect.oom_request ∈ eff1 → sysrq_trigger_oom (event_sysrq e1) = true)
    (h3 : exec w2 mid = some w3)
    (h4 : step w3 e2 = some (w4, eff2))
    (hemit2 : Effect.signal (level_enum_to_byte level) ∈ eff2) :
    (∀ t2, event_time e2 = some t2 →
      t2 - w2.data.last_trigger.get 0 level > RECOVERY_INTERVAL * G_USEC_PER_SEC) ∧
    (event_time e2 = none →
      ∃ rs, run w2 mid = some rs ∧
        ∃ p ∈ rs, ∃ c, Effect.signal c ∈ p.2 ∧ c < level_enum_to_byte level) ∧
    (∀ t1, event_time e1 = some t1 → w2.data.last_trigger.get 0 level = t1) ∧
    (event_time e1 = none →
      w2.data.last_trigger.get 0 level ∈ List.filterMap event_time pre) := by
  -- the state before the first emission
  have hP1 : Single w1 ∧
      (w1.ctx.idle ≠ [] →
        w1.data.last_trigger.get 0 w1.data.next_state ∈ List.filterMap event_time pre) :=
    exec_forall
      (fun w => Single w ∧ (w.ctx.idle ≠ [] →
        w.data.last_trigger.get 0 w.data.next_state ∈ List.filterMap event_time pre))
      (fun e => ∀ t, event_time e = some t → t ∈ List.filterMap event_time pre)
      (fun w e v eff hP hE hs => step_stamp _ w v e eff hP hE hs)
      pre _ w1
      (fun e he t ht => List.mem_filterMap.mpr ⟨e, he, ht⟩)
      ⟨Or.inl rfl, fun h => absurd rfl h⟩ h1
  obtain ⟨_, hoom, hS2, hc⟩ := step_inv w1 w2 e1 eff1 hP1.1 h2
  -- the recorded time of the first emission
  have hstamp : w2.data.current_state = level ∧
      w2.data.last_trigger.get 0 level ∈ List.filterMap event_time (pre ++ [e1]) ∧
      (∀ t1, event_time e1 = some t1 → w2.data.last_trigger.get 0 level = t1) ∧
      (event_time e1 = none →
        w2.data.last_trigger.get 0 level ∈ List.filterMap event_time pre) := by
    rcases hc with ⟨rfl, rfl⟩ | ⟨sid, t, r, env, L, rfl, hf, _, _, _, hcur, _, hlt, rfl⟩ |
      ⟨sid, t, r, env, rfl, _, _, rfl⟩ |
      ⟨sid, t, r, env, L, rfl, _, _, _, _, _, _, _, _, rfl⟩ |
      ⟨env, rfl, hi0, _, _, hcur, _, hlt, rfl⟩ | ⟨env, rfl, _, _, _, rfl⟩
    · exact absurd hemit1 (List.not_mem_nil _)
    · have hL : level = L := level_enum_to_byte_inj _ _ (mem_signal_effects _ _ _ hemit1)
      subst hL
      have hno : ¬ (level = CRITICAL ∧ w1.data.trigger_kernel_oom = true ∧
          sysrq_trigger_oom env = false) := by
        rintro ⟨hcr, ho, hfail⟩
        have := hrec (by rw [if_pos ⟨hcr, ho⟩]; simp)
        simp only [event_sysrq] at this
        rw [this] at hfail
        exact absurd hfail (by decide)
      have hval : w2.data.last_trigger.get 0 level = t := by
        rw [hlt, if_neg hno, get_set, if_pos ⟨rfl, find_level_ne_invalid _ _ _ hf⟩]
      refine ⟨hcur, ?_, ?_, ?_⟩
      · rw [hval]
        exact List.mem_filterMap.mpr
          ⟨Event.pressure sid t r env, List.mem_append_right _ (List.mem_singleton.mpr rfl), rfl⟩
      · intro t1 ht1
        simp only [event_time, Option.some.injEq] at ht1
        rw [hval, ht1]
      · intro hnone
        simp [event_time] at hnone
    · exact absurd hemit1 (List.not_mem_nil _)
    · exact absurd hemit1 (List.not_mem_nil _)
    · have hL : level = w1.data.next_state :=
        level_enum_to_byte_inj _ _ (mem_signal_effects _ _ _ hemit1)
      have hin := hP1.2 hi0
      rw [← hL, ← hlt] at hin
      refine ⟨by rw [hcur, hL], ?_, ?_, fun _ => hin⟩
      · rw [List.filterMap_append]
        exact List.mem_append_left _ hin
      · intro t1 ht1
        simp [event_time] at ht1
    · exact absurd hemit1 (List.not_mem_nil _)
  have hQ1 : Single w1 ∧
      (w1.ctx.idle ≠ [] → w1.data.current_state.toInt < w1.data.next_state.toInt) :=
    exec_forall
      (fun w => Single w ∧
        (w.ctx.idle ≠ [] → w.data.current_state.toInt < w.data.next_state.toInt))
      (fun _ => True)
      (fun w e v eff hP _ hs => (step_pending w v e eff hP hs).1)
      pre _ w1 (fun _ _ => trivial) ⟨Or.inl rfl, fun h => absurd rfl h⟩ h1
  have hQ2 := (step_pending w1 w2 e1 eff1 hQ1 h2).1
  refine ⟨?_, ?_, hstamp.2.2⟩
  · -- the second emission is a direct confirmation
    intro t2 ht2
    have hs0 : 0 < w2.data.last_trigger.get 0 level := hpos _ hstamp.2.1
    rw [List.filterMap_append, List.pairwise_append] at hord
    have hlater : ∀ t ∈ List.filterMap event_time (mid ++ [e2]),
        w2.data.last_trigger.get 0 level ≤ t := fun t ht => hord.2.2 _ hstamp.2.1 t ht
    have hP3 : Single w3 ∧
        w2.data.last_trigger.get 0 level ≤ w3.data.last_trigger.get 0 level :=
      exec_forall
        (fun w => Single w ∧
          w2.data.last_trigger.get 0 level ≤ w.data.last_trigger.get 0 level)
        (fun e => ∀ t, event_time e = some t → w2.data.last_trigger.get 0 level ≤ t)
        (fun w e v eff hP hE hs => step_stamp_mono _ level w v e eff hP hE hs)
        mid w2 w3
        (fun e he t ht => hlater t (by
          rw [List.filterMap_append]
          exact List.mem_append_left _ (List.mem_filterMap.mpr ⟨e, he, ht⟩)))
        ⟨hS2, le_refl _⟩ h3
    obtain ⟨_, _, _, hc4⟩ := step_inv w3 w4 _ eff2 hP3.1 h4
    rcases hc4 with ⟨rfl, rfl⟩ | ⟨sid, t, r, env, L, rfl, hf, _, hchk, _, _, _, _, rfl⟩ |
      ⟨sid, t, r, env, rfl, _, _, rfl⟩ |
      ⟨sid, t, r, env, L, rfl, _, _, _, _, _, _, _, _, rfl⟩ |
      ⟨env, rfl, _, _, _, _, _, _, rfl⟩ | ⟨env, rfl, _, _, _, rfl⟩
    · exact absurd hemit2 (List.not_mem_nil _)
    · have hL : level = L := level_enum_to_byte_inj _ _ (mem_signal_effects _ _ _ hemit2)
      subst hL
      simp only [event_time, Option.some.injEq] at ht2
      subst ht2
      rcases hchk with hz | hgt
      · have := hP3.2
        omega
      · have := hP3.2
        omega
    · exact absurd hemit2 (List.not_mem_nil _)
    · exact absurd hemit2 (List.not_mem_nil _)
    · simp [event_time] at ht2
    · exact absurd hemit2 (List.not_mem_nil _)
  · -- the second emission is made by the deferred task
    intro hnone
    rcases exec_no_lower level mid w2 w3 hQ2 (by rw [hstamp.1]) h3 with hlow | ⟨hQ3, hle3⟩
    · exact hlow
    · exfalso
      obtain ⟨_, _, _, hc4⟩ := step_inv w3 w4 _ eff2 hQ3.1 h4
      rcases hc4 with ⟨rfl, rfl⟩ | ⟨sid, t, r, env, L, rfl, _, _, _, _, _, _, _, rfl⟩ |
        ⟨sid, t, r, env, rfl, _, _, rfl⟩ |
        ⟨sid, t, r, env, L, rfl, _, _, _, _, _, _, _, _, rfl⟩ |
        ⟨env, rfl, hi0, _, _, _, _, _, rfl⟩ | ⟨env, rfl, _, _, _, rfl⟩
      · exact absurd hemit2 (List.not_mem_nil _)
      · simp [event_time] at hnone
      · exact absurd hemit2 (List.not_mem_nil _)
      · exact absurd hemit2 (List.not_mem_nil _)
      · have hL : level = w3.data.next_state :=
          level_enum_to_byte_inj _ _ (mem_signal_effects _ _ _ hemit2)
        have := hQ3.2 hi0
        rw [← hL] at this
        omega
      · exact absurd hemit2 (List.not_mem_nil _)

/-- C7, witness: Critical is confirmed at 1 s and, after a Low event at 2 s
and an idle dispatch, again at 17 s, 16 s after the recorded time. In the
first run of the counterexample, the second Medium broadcast by the deferred
task comes after the Low broadcast at 2 s. -/
theorem C7_recovery_interval_unless_lower_level_between_witness :
    (run (initial true { low := 1, medium := 2, critical := 3 } 3)
      [Event.pressure 3 1000000 (3 / 10) { open_fd := 4, io_n := 1 },
       Event.pressure 1 2000000 (3 / 10) { open_fd := 4, io_n := 1 },
       Event.idle { open_fd := 4, io_n := 1 },
       Event.pressure 3 17000000 (3 / 10) { open_fd := 4, io_n := 1 }]).map (List.map (fun p => p.2)) =
    some [[Effect.signal 255, Effect.oom_request], [Effect.signal 50], [],
          [Effect.signal 255, Effect.oom_request]] ∧
    (17000000 : Int) - (PerLevel.mk 0 0 1000000 : PerLevel Int).get 0 CRITICAL >
      RECOVERY_INTERVAL * G_USEC_PER_SEC ∧
    (∃ rs,
      run
        { data :=
                { ret := 0, trigger_kernel_oom := true,
                  source_id := { low := 1, medium := 2, critical := 3 },
                  last_trigger := { low := 0, medium := 1000000, critical := 0 },
                  signal_timeout := 0, current_state := MEDIUM, next_state := INVALID },
                ctx := { last_id := 4, idle := [], quit := false } }
        [Event.pressure 1 2000000 (3 / 10) { open_fd := 4, io_n := 1 },
         Event.pressure 2 3000000 (3 / 10) { open_fd := 4, io_n := 1 }] = some rs ∧
      ∃ p ∈ rs, ∃ c, Effect.signal c ∈ p.2 ∧ c < level_enum_to_byte MEDIUM) :=
  ⟨by decide!,
   (C7_recovery_interval_unless_lower_level_between true
      { low := 1, medium := 2, critical := 3 } 3
      []
      [Event.pressure 1 2000000 (3 / 10) { open_fd := 4, io_n := 1 },
       Event.idle { open_fd := 4, io_n := 1 }]
      (Event.pressure 3 1000000 (3 / 10) { open_fd := 4, io_n := 1 })
      (Event.pressure 3 17000000 (3 / 10) { open_fd := 4, io_n := 1 })
      (initial true { low := 1, medium := 2, critical := 3 } 3)
      { data :=
                { ret := 0, trigger_kernel_oom := true,
                  source_id := { low := 1, medium := 2, critical := 3 },
                  last_trigger := { low := 0, medium := 0, critical := 1000000 },
                  signal_timeout := 0, current_state := CRITICAL, next_state := INVALID },
                ctx := { last_id := 3, idle := [], quit := false } }
      { data :=
                { ret := 0, trigger_kernel_oom := true,
                  source_id := { low := 1, medium := 2, critical := 3 },
                  last_trigger := { low := 2000000, medium := 0, critical := 1000000 },
                  signal_timeout := 0, current_state := LOW, next_state := INVALID },
                ctx := { last_id := 3, idle := [], quit := false } }
      { data :=
                { ret := 0, trigger_kernel_oom := true,
                  source_id := { low := 1, medium := 2, critical := 3 },
                  last_trigger := { low := 2000000, medium := 0, critical := 17000000 },
                  signal_timeout := 0, current_state := CRITICAL, next_state := INVALID },
                ctx := { last_id := 3, idle := [], quit := false } }
      [Effect.signal 255, Effect.oom_request] [Effect.signal 255, Effect.oom_request] CRITICAL
      (by decide!) (by decide!) rfl (by decide!) (by decide!) (by decide!) (by decide!)
      (by decide!) (by decide!)).1 17000000 rfl,
   (C7_recovery_interval_unless_lower_level_between true
      { low := 1, medium := 2, critical := 3 } 3
      [Event.pressure 2 1000000 (3 / 10) { open_fd := 4, io_n := 1 }]
      [Event.pressure 1 2000000 (3 / 10) { open_fd := 4, io_n := 1 },
         Event.pressure 2 3000000 (3 / 10) { open_fd := 4, io_n := 1 }]
      (Event.idle { open_fd := 4, io_n := 1 })
      (Event.idle { open_fd := 4, io_n := 1 })
      { data :=
                { ret := 0, trigger_kernel_oom := true,
                  source_id := { low := 1, medium := 2, critical := 3 },
                  last_trigger := { low := 0, medium := 1000000, critical := 0 },
                  signal_timeout := 4, current_state := INVALID, next_state := MEDIUM },
                ctx := { last_id := 4, idle := [4], quit := false } }
      { data :=
                { ret := 0, trigger_kernel_oom := true,
                  source_id := { low := 1, medium := 2, critical := 3 },
                  last_trigger := { low := 0, medium := 1000000, critical := 0 },
                  signal_timeout := 0, current_state := MEDIUM, next_state := INVALID },
                ctx := { last_id := 4, idle := [], quit := false } }
      { data :=
                { ret := 0, trigger_kernel_oom := true,
                  source_id := { low := 1, medium := 2, critical := 3 },
                  last_trigger := { low := 2000000, medium := 3000000, critical := 0 },
                  signal_timeout := 5, current_state := LOW, next_state := MEDIUM },
                ctx := { last_id := 5, idle := [5], quit := false } }
      { data :=
                { ret := 0, trigger_kernel_oom := true,
                  source_id := { low := 1, medium := 2, critical := 3 },
                  last_trigger := { low := 2000000, medium := 3000000, critical := 0 },
                  signal_timeout := 0, current_state := MEDIUM, next_state := INVALID },
                ctx := { last_id := 5, idle := [], quit := false } }
      [Effect.signal 100] [Effect.signal 100] MEDIUM
      (by decide!) (by decide!) (by decide!) (by decide!) (by decide!) (by decide!) (by decide!)
      (by decide!) (by decide!)).2.1 rfl⟩

/-! ## C9 -/

/-- C9, counterexample: the Low registration succeeds and gets watch id 6, the
Medium registration fails on its `write`, and Critical would succeed. The
handler leaves the loop at Medium and quits the main loop although one
registration succeeded; Critical is never attempted and its id stays 0. -/
theorem C9_counterexample :
    name_acquired_handler (initial false { low := 0, medium := 0, critical := 0 } 5)
      { low := { open_fd := 7, io_n := 21 }
        medium := { open_fd := 8, io_n := -1 }
        critical := { open_fd := 9, io_n := 22 } } =
    { data :=
        { ret := 0, trigger_kernel_oom := false
          source_id := { low := 6, medium := 0, critical := 0 }
          last_trigger := { low := 0, medium := 0, critical := 0 }
          signal_timeout := 0, current_state := INVALID, next_state := INVALID }
      ctx := { last_id := 6, idle := [], quit := true } } ∧
    registers { open_fd := 7, io_n := 21 } = true ∧
    registers { open_fd := 8, io_n := -1 } = false ∧
    registers { open_fd := 9, io_n := 22 } = true := by
  decide

/-- C9, amended: `name_acquired_handler` quits the main loop as soon as one
registration fails, in the order Low, Medium, Critical, and attempts no later
level: after the handler the loop is quit exactly when it was quit before or
not all three registrations succeed. A level whose registration succeeds
after all earlier levels succeeded has its nonzero watch id stored; the level
that fails has 0 stored and the levels after it keep what they held. -/
theorem C9_startup_quits_on_first_failure (w : World) (psi : PerLevel FileEnv) :
    (name_acquired_handler w psi).ctx.quit =
      (w.ctx.quit || !(registers psi.low && registers psi.medium && registers psi.critical)) ∧
    (registers psi.low = true →
      (name_acquired_handler w psi).data.source_id.low = w.ctx.last_id + 1) ∧
    (registers psi.low = true → registers psi.medium = true →
      (name_acquired_handler w psi).data.source_id.medium = w.ctx.last_id + 2) ∧
    (registers psi.low = true → registers psi.medium = true → registers psi.critical = true →
      (name_acquired_handler w psi).data.source_id.critical = w.ctx.last_id + 3) ∧
    (registers psi.low = false →
      (name_acquired_handler w psi).data.source_id =
        { w.data.source_id with low := 0 }) ∧
    (registers psi.low = true → registers psi.medium = false →
      (name_acquired_handler w psi).data.source_id =
        { w.data.source_id with low := w.ctx.last_id + 1, medium := 0 }) ∧
    (registers psi.low = true → registers psi.medium = true → registers psi.critical = false →
      (name_acquired_handler w psi).data.source_id =
        { low := w.ctx.last_id + 1, medium := w.ctx.last_id + 2, critical := 0 }) := by
  simp only [name_acquired_handler, name_acquired_loop, memory_pressure_monitor_add_trigger,
    g_unix_fd_add_full, registers, PerLevel.get, PerLevel.set, g_main_loop_quit]
  by_cases h1 : psi.low.open_fd < 0 <;> by_cases h2 : psi.low.io_n < 0 <;>
  by_cases h3 : psi.medium.open_fd < 0 <;> by_cases h4 : psi.medium.io_n < 0 <;>
  by_cases h5 : psi.critical.open_fd < 0 <;> by_cases h6 : psi.critical.io_n < 0 <;>
  simp [h1, h2, h3, h4, h5, h6, not_le.mpr, not_lt.mp]

/-- C9, witness: with all three registrations succeeding the loop keeps
running and the ids 6, 7, 8 are stored; with Medium failing it is quit. -/
theorem C9_startup_quits_on_first_failure_witness :
    name_acquired_handler (initial false { low := 0, medium := 0, critical := 0 } 5)
      { low := { open_fd := 7, io_n := 21 }
        medium := { open_fd := 8, io_n := 22 }
        critical := { open_fd := 9, io_n := 22 } } =
    { data :=
        { ret := 0, trigger_kernel_oom := false
          source_id := { low := 6, medium := 7, critical := 8 }
          last_trigger := { low := 0, medium := 0, critical := 0 }
          signal_timeout := 0, current_state := INVALID, next_state := INVALID }
      ctx := { last_id := 8, idle := [], quit := false } } ∧
    (name_acquired_handler (initial false { low := 0, medium := 0, critical := 0 } 5)
      { low := { open_fd := 7, io_n := 21 }
        medium := { open_fd := 8, io_n := -1 }
        critical := { open_fd := 9, io_n := 22 } }).ctx.quit =
      (false || !(registers { open_fd := 7, io_n := 21 } && registers { open_fd := 8, io_n := -1 } &&
        registers { open_fd := 9, io_n := 22 })) ∧
    (name_acquired_handler (initial false { low := 0, medium := 0, critical := 0 } 5)
      { low := { open_fd := 7, io_n := 21 }
        medium := { open_fd := 8, io_n := -1 }
        critical := { open_fd := 9, io_n := 22 } }).data.source_id.low = 5 + 1 :=
  ⟨by decide,
   (C9_startup_quits_on_first_failure
      (initial false { low := 0, medium := 0, critical := 0 } 5)
      { low := { open_fd := 7, io_n := 21 }
        medium := { open_fd := 8, io_n := -1 }
        critical := { open_fd := 9, io_n := 22 } }).1,
   (C9_startup_quits_on_first_failure
      (initial false { low := 0, medium := 0, critical := 0 } 5)
      { low := { open_fd := 7, io_n := 21 }
        medium := { open_fd := 8, io_n := -1 }
        critical := { open_fd := 9, io_n := 22 } }).2.1 (by decide)⟩

/-! ## C11 -/

theorem exec_snoc (e : Event) :
    ∀ (evs : List Event) (w w1 : World), exec w (evs ++ [e]) = some w1 →
      ∃ v eff, exec w evs = some v ∧ step v e = some (w1, eff) := by
  intro evs
  induction evs with
  | nil =>
    intro w w1 h
    simp only [List.nil_append, exec] at h
    cases hs : step w e with
    | none => simp [hs] at h
    | some r =>
      simp only [hs, Option.some.injEq] at h
      exact ⟨w, r.2, rfl, by rw [← h, hs]⟩
  | cons a es ih =>
    intro w w1 h
    simp only [List.cons_append, exec] at h
    cases hs : step w a with
    | none => simp [hs] at h
    | some r =>
      simp only [hs] at h
      obtain ⟨v, eff, hv, hstep⟩ := ih r.1 w1 h
      exact ⟨v, eff, by simp only [exec, hs]; exact hv, hstep⟩

theorem stamped_snoc (w0 : World) (evs : List Event) (e : Event) (level : LowMemoryLevelEnum)
    (t : Int) (h : StampedBy w0 evs level t) : StampedBy w0 (evs ++ [e]) level t := by
  obtain ⟨pre, post, sid, r, env, w1, w2, eff, hevs, hrest⟩ := h
  exact ⟨pre, post ++ [e], sid, r, env, w1, w2, eff, by rw [hevs]; simp, hrest⟩

/-- In every state of a run from the initial state, `last_trigger` of a level
is 0 or the timestamp of a trigger event of the run that confirmed the level
directly or armed the deferred task for it. -/
theorem exec_stamped (trigger_kernel_oom : Bool) (ids : PerLevel Nat) (last_id : Nat) :
    ∀ (evs : List Event) (w : World),
      exec (initial trigger_kernel_oom ids last_id) evs = some w →
      Single w ∧ ∀ level, w.data.last_trigger.get 0 level = 0 ∨
        StampedBy (initial trigger_kernel_oom ids last_id) evs level
          (w.data.last_trigger.get 0 level) := by
  intro evs
  induction evs using List.reverseRecOn with
  | nil =>
    intro w h
    simp only [exec, Option.some.injEq] at h
    subst h
    exact ⟨Or.inl rfl, fun level => Or.inl (by cases level <;> rfl)⟩
  | append_singleton evs e ih =>
    intro w h
    obtain ⟨v, eff, hv, hstep⟩ := exec_snoc e evs _ w h
    obtain ⟨hSv, hIH⟩ := ih v hv
    obtain ⟨_, _, hS, hc⟩ := step_inv v w e eff hSv hstep
    refine ⟨hS, fun level => ?_⟩
    have keep : w.data.last_trigger.get 0 level = v.data.last_trigger.get 0 level →
        w.data.last_trigger.get 0 level = 0 ∨
          StampedBy (initial trigger_kernel_oom ids last_id) (evs ++ [e]) level
            (w.data.last_trigger.get 0 level) := by
      intro heq
      rw [heq]
      rcases hIH level with h0 | hst
      · exact Or.inl h0
      · exact Or.inr (stamped_snoc _ _ _ _ _ hst)
    rcases hc with ⟨rfl, rfl⟩ | ⟨sid, t, r, env, L, rfl, hf, hr, _, _, _, _, hlt, rfl⟩ |
      ⟨sid, t, r, env, rfl, _, hd, rfl⟩ |
      ⟨sid, t, r, env, L, rfl, hf, hr, _, _, hi, _, hnext, hlt, rfl⟩ |
      ⟨env, rfl, _, _, _, _, _, hlt, rfl⟩ | ⟨env, rfl, _, _, hd, rfl⟩
    · exact keep rfl
    · by_cases hfail : L = CRITICAL ∧ v.data.trigger_kernel_oom = true ∧
          sysrq_trigger_oom env = false
      · exact keep (by rw [hlt, if_pos hfail])
      · by_cases hL : L = level
        · subst hL
          right
          have hval : w.data.last_trigger.get 0 L = t := by
            rw [hlt, if_neg hfail, get_set, if_pos ⟨rfl, find_level_ne_invalid _ _ _ hf⟩]
          rw [hval]
          exact ⟨evs, [], sid, r, env, v, w, _, rfl, hv, hstep, hf, hr,
            Or.inl (List.mem_cons_self _ _)⟩
        · exact keep (by
            rw [hlt, if_neg hfail, get_set, if_neg (fun h => hL h.1)])
    · exact keep (by rw [hd])
    · by_cases hL : L = level
      · subst hL
        right
        have hval : w.data.last_trigger.get 0 L = t := by
          rw [hlt, get_set, if_pos ⟨rfl, find_level_ne_invalid _ _ _ hf⟩]
        rw [hval]
        exact ⟨evs, [], sid, r, env, v, w, _, rfl, hv, hstep, hf, hr,
          Or.inr ⟨rfl, hnext, hi⟩⟩
      · exact keep (by rw [hlt, get_set, if_neg (fun h => hL h.1)])
    · exact keep (by rw [hlt])
    · exact keep (by rw [hd])

/-- C11, counterexample: from the initial state, Medium at 1 s is deferred and
Critical at 1.1 s supersedes it, so no step broadcasts 100; yet
`last_trigger[MEDIUM]` is 1 s, not 0, and the Medium event at 2 s, a direct
confirmation of a level never emitted, is suppressed by the recovery check. -/
theorem C11_counterexample :
    exec (initial true { low := 1, medium := 2, critical := 3 } 3)
      [Event.pressure 2 1000000 (3 / 10) { open_fd := 4, io_n := 1 },
       Event.pressure 3 1100000 (3 / 10) { open_fd := 4, io_n := 1 }] =
    some
      { data :=
                { ret := 0, trigger_kernel_oom := true,
                  source_id := { low := 1, medium := 2, critical := 3 },
                  last_trigger := { low := 0, medium := 1000000, critical := 1100000 },
                  signal_timeout := 0, current_state := CRITICAL, next_state := INVALID },
                ctx := { last_id := 4, idle := [], quit := false } } ∧
    (run (initial true { low := 1, medium := 2, critical := 3 } 3)
      [Event.pressure 2 1000000 (3 / 10) { open_fd := 4, io_n := 1 },
       Event.pressure 3 1100000 (3 / 10) { open_fd := 4, io_n := 1 },
       Event.pressure 2 2000000 (3 / 10) { open_fd := 4, io_n := 1 }]).map (List.map (fun p => p.2)) =
    some [[], [Effect.signal 255, Effect.oom_request], []] ∧
    find_level (initial_data true { low := 1, medium := 2, critical := 3 }) 2 = some MEDIUM ∧
    MEDIUM.toInt ≤ CRITICAL.toInt ∧ (1000000 : Int) ≠ 0 := by
  decide!

/-- C11, amended: in every state of a run from the initial state and for
every level, `last_trigger` of the level is 0 or the timestamp of a trigger
event of the run, for that level and below the gate, which either broadcast
the level's code in its own handling pass or armed the deferred task for the
level (the stamp is written at arming, whether or not the deferred task later
emits). A direct confirmation of a level whose `last_trigger` is 0 is never
suppressed: it broadcasts the level's code and stores the level. -/
theorem C11_last_trigger_records_confirmations_and_armings
    (trigger_kernel_oom : Bool) (ids : PerLevel Nat) (last_id : Nat) (evs : List Event)
    (w : World) (level : LowMemoryLevelEnum)
    (h : exec (initial trigger_kernel_oom ids last_id) evs = some w) :
    (w.data.last_trigger.get 0 level = 0 ∨
      ∃ pre post source_id mem_ratio sysrq w1 w2 eff,
        evs = pre ++
          Event.pressure source_id (w.data.last_trigger.get 0 level) mem_ratio sysrq :: post ∧
        exec (initial trigger_kernel_oom ids last_id) pre = some w1 ∧
        step w1 (Event.pressure source_id (w.data.last_trigger.get 0 level) mem_ratio sysrq) =
          some (w2, eff) ∧
        find_level w1.data source_id = some level ∧ mem_ratio < 0.5 ∧
        (Effect.signal (level_enum_to_byte level) ∈ eff ∨
          (eff = [] ∧ w2.data.next_state = level ∧ w2.ctx.idle ≠ []))) ∧
    (∀ source_id current_time mem_ratio sysrq,
      find_level w.data source_id = some level → mem_ratio < 0.5 →
      (level.toInt ≤ w.data.current_state.toInt ∨ level = CRITICAL) →
      w.data.last_trigger.get 0 level = 0 →
      ∃ w1 eff, memory_pressure_cb w source_id current_time mem_ratio sysrq = some (w1, eff) ∧
        Effect.signal (level_enum_to_byte level) ∈ eff ∧ w1.data.current_state = level) := by
  refine ⟨(exec_stamped trigger_kernel_oom ids last_id evs w h).2 level, ?_⟩
  intro source_id current_time mem_ratio sysrq hf hg hd hz
  rw [memory_pressure_cb_eq _ _ level _ _ _ hf, if_neg (not_le.mpr hg), if_pos hd,
    if_pos (Or.inl hz)]
  refine ⟨_, _, rfl, ?_, rfl⟩
  rw [emit_signal_effects]
  exact List.mem_cons_self _ _

/-- C11, witness: after Medium at 1 s and Critical at 1.1 s, the stamp of
`MEDIUM` is the time of the Medium event, which armed the deferred task. -/
theorem C11_last_trigger_records_confirmations_and_armings_witness :
    exec (initial true { low := 1, medium := 2, critical := 3 } 3)
      [Event.pressure 2 1000000 (3 / 10) { open_fd := 4, io_n := 1 },
       Event.pressure 3 1100000 (3 / 10) { open_fd := 4, io_n := 1 }] =
    some
      { data :=
                { ret := 0, trigger_kernel_oom := true,
                  source_id := { low := 1, medium := 2, critical := 3 },
                  last_trigger := { low := 0, medium := 1000000, critical := 1100000 },
                  signal_timeout := 0, current_state := CRITICAL, next_state := INVALID },
                ctx := { last_id := 4, idle := [], quit := false } } ∧
    (((PerLevel.mk 0 1000000 1100000 : PerLevel Int).get 0 MEDIUM = 0 ∨
      ∃ pre post source_id mem_ratio sysrq w1 w2 eff,
        [Event.pressure 2 1000000 (3 / 10) { open_fd := 4, io_n := 1 },
         Event.pressure 3 1100000 (3 / 10) { open_fd := 4, io_n := 1 }] = pre ++
          Event.pressure source_id ((PerLevel.mk 0 1000000 1100000 : PerLevel Int).get 0 MEDIUM)
            mem_ratio sysrq :: post ∧
        exec (initial true { low := 1, medium := 2, critical := 3 } 3) pre = some w1 ∧
        step w1 (Event.pressure source_id
            ((PerLevel.mk 0 1000000 1100000 : PerLevel Int).get 0 MEDIUM) mem_ratio sysrq) =
          some (w2, eff) ∧
        find_level w1.data source_id = some MEDIUM ∧ mem_ratio < 0.5 ∧
        (Effect.signal (level_enum_to_byte MEDIUM) ∈ eff ∨
          (eff = [] ∧ w2.data.next_state = MEDIUM ∧ w2.ctx.idle ≠ []))) ∧
    (∀ source_id current_time mem_ratio sysrq,
      find_level
        (World.data
          { data :=
                { ret := 0, trigger_kernel_oom := true,
                  source_id := { low := 1, medium := 2, critical := 3 },
                  last_trigger := { low := 0, medium := 1000000, critical := 1100000 },
                  signal_timeout := 0, current_state := CRITICAL, next_state := INVALID },
                ctx := { last_id := 4, idle := [], quit := false } })
        source_id = some MEDIUM → mem_ratio < 0.5 →
      (MEDIUM.toInt ≤ CRITICAL.toInt ∨ MEDIUM = CRITICAL) →
      (PerLevel.mk 0 1000000 1100000 : PerLevel Int).get 0 MEDIUM = 0 →
      ∃ w1 eff,
        memory_pressure_cb
          { data :=
                { ret := 0, trigger_kernel_oom := true,
                  source_id := { low := 1, medium := 2, critical := 3 },
                  last_trigger := { low := 0, medium := 1000000, critical := 1100000 },
                  signal_timeout := 0, current_state := CRITICAL, next_state := INVALID },
                ctx := { last_id := 4, idle := [], quit := false } }
          source_id current_time mem_ratio sysrq = some (w1, eff) ∧
        Effect.signal (level_enum_to_byte MEDIUM) ∈ eff ∧ w1.data.current_state = MEDIUM)) :=
  ⟨by decide!,
   C11_last_trigger_records_confirmations_and_armings true
    { low := 1, medium := 2, critical := 3 } 3
    [Event.pressure 2 1000000 (3 / 10) { open_fd := 4, io_n := 1 },
     Event.pressure 3 1100000 (3 / 10) { open_fd := 4, io_n := 1 }]
    { data :=
                { ret := 0, trigger_kernel_oom := true,
                  source_id := { low := 1, medium := 2, critical := 3 },
                  last_trigger := { low := 0, medium := 1000000, critical := 1100000 },
                  signal_timeout := 0, current_state := CRITICAL, next_state := INVALID },
                ctx := { last_id := 4, idle := [], quit := false } }
    MEDIUM (by decide!)⟩

end LowMemoryMonitor
